import Mathlib

/-!
Verification of the region-to-partition resolution engine of
`rust-runtime/inlineable/src/endpoint_lib/partition.rs`.

The Rust source is embedded shallowly:

* pure functions become Lean functions on the same data;
* the mutable `DiagnosticCollector` argument of `resolve_partition` becomes
  explicit state passing (the function returns the updated collector);
* `Result`-returning code returns `Except`; a Rust panic raised by
  `expect`/`unwrap` is represented by the distinguished error constructor
  `DeserError.panic`, kept separate from `DeserError.custom`
  (which models `DeserializeError::custom`);
* external collaborators that are not part of the given sources (the JSON
  tokenizer of aws-smithy-json, the regex engine of the regex-lite crate and
  the diagnostic collector of endpoint_lib/diagnostic.rs) are modelled from
  the spec at their interfaces.
-/

namespace EndpointLib

/-- Modelled from the spec: the structural tokens yielded by the external
low-level JSON tokenizer (aws-smithy-json), which is an external collaborator
"assumed to already exist and to produce a stream of typed tokens from a byte
buffer". String payloads are already unescaped by the tokenizer. The numeric
payload of a number token is never inspected by the partition loader, so it is
omitted from the model. -/
inductive Token where
  | startObject
  | endObject
  | startArray
  | endArray
  | objectKey (key : String)
  | valueString (s : String)
  | valueBool (b : Bool)
  | valueNull
  | valueNumber
deriving DecidableEq

/-- Deserialization failure. `custom` models `DeserializeError::custom`;
`panic` models a Rust panic raised by `expect`/`unwrap` on the builder path.
A panic is not a returned error in the source — the two are kept distinct so
that theorems can tell an `Err` return from a crash. -/
inductive DeserError where
  | custom (msg : String)
  | panic (msg : String)
deriving DecidableEq

/-- Modelled from the spec: the diagnostic collector
(`endpoint_lib/diagnostic.rs` is not among the given sources). Per the spec it
is an append-only accumulator of error messages owned by the caller of
`resolve`, exposing `report_error` and inspected after the call. -/
structure DiagnosticCollector where
  errors : List String
deriving DecidableEq

/-- Modelled from the spec: `report_error` appends one message to the
caller-owned collector. -/
def DiagnosticCollector.report_error (e : DiagnosticCollector) (msg : String) :
    DiagnosticCollector :=
  { errors := e.errors ++ [msg] }

/-- Modelled from the spec: the external regular-expression engine (the
regex-lite crate), "a regular-expression engine supporting standard anchored
matching". `compile_ok pat` models whether `Regex::new(pat)` succeeds;
`is_match pat region` models `Regex::is_match` of the compiled pattern. A
compiled `Regex` value is represented by its pattern string. -/
structure RegexEngine where
  compile_ok : String → Bool
  is_match : String → String → Bool

/-- The six fully-populated partition outputs (struct `PartitionOutput`). -/
structure PartitionOutput where
  name : String
  dns_suffix : String
  dual_stack_dns_suffix : String
  supports_fips : Bool
  supports_dual_stack : Bool
  implicit_global_region : String
deriving DecidableEq

/-- The six optional output fields (struct `PartitionOutputOverride`). -/
structure PartitionOutputOverride where
  name : Option String := none
  dns_suffix : Option String := none
  dual_stack_dns_suffix : Option String := none
  supports_fips : Option Bool := none
  supports_dual_stack : Option Bool := none
  implicit_global_region : Option String := none
deriving DecidableEq

/-- Lookup in the model of `HashMap<Str, PartitionOutputOverride>`: an
association list whose keys are kept unique by `hashInsert`. Models
`HashMap::get`. -/
def hashGet : List (String × PartitionOutputOverride) → String →
    Option PartitionOutputOverride
  | [], _ => none
  | kv :: rest, k => if kv.1 = k then some kv.2 else hashGet rest k

/-- Model of `HashMap::insert`: replace the binding when the key is present,
otherwise add it at the end. -/
def hashInsert : List (String × PartitionOutputOverride) → String →
    PartitionOutputOverride → List (String × PartitionOutputOverride)
  | [], k, v => [(k, v)]
  | kv :: rest, k, v => if kv.1 = k then (k, v) :: rest else kv :: hashInsert rest k v

/-- Struct `PartitionMetadata`. The compiled `region_regex : Regex` is
represented by its pattern string; matching is delegated to the external
`RegexEngine`. -/
structure PartitionMetadata where
  id : String
  region_regex : String
  regions : List (String × PartitionOutputOverride)
  outputs : PartitionOutput
deriving DecidableEq

/-- Struct `PartitionResolver`: the ordered catalog of partitions. -/
structure PartitionResolver where
  partitions : List PartitionMetadata
deriving DecidableEq

/-- `PartitionResolver::from_partitions`. -/
def PartitionResolver.from_partitions (partitions : List PartitionMetadata) :
    PartitionResolver :=
  { partitions := partitions }

/-- `PartitionResolver::empty`. -/
def PartitionResolver.empty : PartitionResolver :=
  { partitions := [] }

/-- `PartitionResolver::add_partition` (push at the end). -/
def PartitionResolver.add_partition (r : PartitionResolver)
    (partition : PartitionMetadata) : PartitionResolver :=
  { partitions := r.partitions ++ [partition] }

/-- The resolved borrowed view `Partition` (its six accessor methods simply
read the corresponding field, so the view is modelled as an owned record of
the six resolved fields). -/
structure Partition where
  name : String
  dns_suffix : String
  dual_stack_dns_suffix : String
  supports_fips : Bool
  supports_dual_stack : Bool
  implicit_global_region : String
deriving DecidableEq

/-- The static `DEFAULT_OVERRIDE`: the all-`None` override used when no
region-level override exists. -/
def DEFAULT_OVERRIDE : PartitionOutputOverride :=
  { name := none
    dns_suffix := none
    dual_stack_dns_suffix := none
    supports_fips := none
    supports_dual_stack := none
    implicit_global_region := none }

/-- The `merge!` macro applied to all six fields: for each field take the
override's value if present, else the base partition's `outputs` value. This
is the body of the `Some(Partition { .. })` expression in
`resolve_partition`. -/
def merge_partition (base : PartitionMetadata) (ov : PartitionOutputOverride) :
    Partition :=
  { name := ov.name.getD base.outputs.name
    dns_suffix := ov.dns_suffix.getD base.outputs.dns_suffix
    dual_stack_dns_suffix := ov.dual_stack_dns_suffix.getD base.outputs.dual_stack_dns_suffix
    supports_fips := ov.supports_fips.getD base.outputs.supports_fips
    supports_dual_stack := ov.supports_dual_stack.getD base.outputs.supports_dual_stack
    implicit_global_region := ov.implicit_global_region.getD base.outputs.implicit_global_region }

/-- `PartitionMetadata::explicit_match`: an explicit hit in the `regions`
map, paired with that key's override. -/
def PartitionMetadata.explicit_match (self : PartitionMetadata) (region : String) :
    Option (PartitionMetadata × Option PartitionOutputOverride) :=
  (hashGet self.regions region).map (fun output_override => (self, some output_override))

/-- `PartitionMetadata::regex_match`: a regex hit, with no override. -/
def PartitionMetadata.regex_match (engine : RegexEngine) (self : PartitionMetadata)
    (region : String) : Option (PartitionMetadata × Option PartitionOutputOverride) :=
  if engine.is_match self.region_regex region then some (self, none) else none

/-- `PartitionResolver::resolve_partition`: three-tier matching (explicit keys
over all partitions in catalog order, then regexes in catalog order, then the
first partition with `id == "aws"`), then the six-field merge. The `&mut
DiagnosticCollector` argument is modelled by returning the updated collector
next to the `Option<Partition>` result. -/
def PartitionResolver.resolve_partition (self : PartitionResolver)
    (engine : RegexEngine) (region : String) (e : DiagnosticCollector) :
    Option Partition × DiagnosticCollector :=
  let explicit_match_partition :=
    (self.partitions.filterMap (fun part => part.explicit_match region)).head?
  let regex_match_partition :=
    (self.partitions.filterMap (fun part => part.regex_match engine region)).head?
  let selected : Option (PartitionMetadata × Option PartitionOutputOverride) ×
      DiagnosticCollector :=
    match explicit_match_partition.orElse (fun _ => regex_match_partition) with
    | some pair => (some pair, e)
    | none =>
      match self.partitions.find? (fun p => p.id == "aws") with
      | some partition => (some (partition, none), e)
      | none => (none, e.report_error "no AWS partition!")
  match selected with
  | (some (base, region_override), e') =>
      (some (merge_partition base (region_override.getD DEFAULT_OVERRIDE)), e')
  | (none, e') => (none, e')

/-! ### Characterization lemmas for the three tiers of `resolve_partition` -/

theorem resolve_partition_explicit_some (r : PartitionResolver) (engine : RegexEngine)
    (region : String) (e : DiagnosticCollector) (base : PartitionMetadata)
    (ovq : Option PartitionOutputOverride)
    (h : (r.partitions.filterMap (fun part => part.explicit_match region)).head? =
      some (base, ovq)) :
    r.resolve_partition engine region e =
      (some (merge_partition base (ovq.getD DEFAULT_OVERRIDE)), e) := by
  unfold PartitionResolver.resolve_partition
  simp only [h]
  rfl

theorem resolve_partition_regex_some (r : PartitionResolver) (engine : RegexEngine)
    (region : String) (e : DiagnosticCollector) (base : PartitionMetadata)
    (ovq : Option PartitionOutputOverride)
    (hexp : (r.partitions.filterMap (fun part => part.explicit_match region)).head? = none)
    (h : (r.partitions.filterMap (fun part => part.regex_match engine region)).head? =
      some (base, ovq)) :
    r.resolve_partition engine region e =
      (some (merge_partition base (ovq.getD DEFAULT_OVERRIDE)), e) := by
  unfold PartitionResolver.resolve_partition
  simp only [hexp, h]
  rfl

theorem resolve_partition_default (r : PartitionResolver) (engine : RegexEngine)
    (region : String) (e : DiagnosticCollector) (base : PartitionMetadata)
    (hexp : (r.partitions.filterMap (fun part => part.explicit_match region)).head? = none)
    (hreg : (r.partitions.filterMap (fun part => part.regex_match engine region)).head? = none)
    (hfind : r.partitions.find? (fun p => p.id == "aws") = some base) :
    r.resolve_partition engine region e =
      (some (merge_partition base DEFAULT_OVERRIDE), e) := by
  unfold PartitionResolver.resolve_partition
  simp only [hexp, hreg, hfind]
  rfl

theorem resolve_partition_fail (r : PartitionResolver) (engine : RegexEngine)
    (region : String) (e : DiagnosticCollector)
    (hexp : (r.partitions.filterMap (fun part => part.explicit_match region)).head? = none)
    (hreg : (r.partitions.filterMap (fun part => part.regex_match engine region)).head? = none)
    (hfind : r.partitions.find? (fun p => p.id == "aws") = none) :
    r.resolve_partition engine region e = (none, e.report_error "no AWS partition!") := by
  unfold PartitionResolver.resolve_partition
  simp only [hexp, hreg, hfind]
  rfl

theorem explicit_head_none_iff (l : List PartitionMetadata) (region : String) :
    (l.filterMap (fun part => part.explicit_match region)).head? = none ↔
      ∀ P ∈ l, hashGet P.regions region = none := by
  rw [List.head?_eq_none_iff, List.filterMap_eq_nil_iff]
  constructor
  · intro h P hP
    have := h P hP
    simpa [PartitionMetadata.explicit_match] using this
  · intro h P hP
    simp [PartitionMetadata.explicit_match, h P hP]

theorem regex_head_none_iff (l : List PartitionMetadata) (engine : RegexEngine)
    (region : String) :
    (l.filterMap (fun part => part.regex_match engine region)).head? = none ↔
      ∀ P ∈ l, engine.is_match P.region_regex region = false := by
  rw [List.head?_eq_none_iff, List.filterMap_eq_nil_iff]
  constructor
  · intro h P hP
    have := h P hP
    simpa [PartitionMetadata.regex_match] using this
  · intro h P hP
    simp [PartitionMetadata.regex_match, h P hP]

theorem filterMap_head_of_first {α β : Type} {pre post : List α} {P : α}
    {f : α → Option β} {y : β} (hpre : ∀ Q ∈ pre, f Q = none) (hP : f P = some y) :
    ((pre ++ P :: post).filterMap f).head? = some y := by
  induction pre with
  | nil => simp [List.filterMap_cons_some hP]
  | cons a l ih =>
    have ha : f a = none := hpre a (by simp)
    simp only [List.cons_append, List.filterMap_cons_none ha]
    exact ih (fun Q hQ => hpre Q (by simp [hQ]))

theorem find_first {α : Type} {pre post : List α} {P : α} {p : α → Bool}
    (hpre : ∀ Q ∈ pre, p Q = false) (hP : p P = true) :
    (pre ++ P :: post).find? p = some P := by
  induction pre with
  | nil => simp [List.find?_cons_of_pos _ hP]
  | cons a l ih =>
    have ha : p a = false := hpre a (by simp)
    simp only [List.cons_append, List.find?_cons, ha]
    exact ih (fun Q hQ => hpre Q (by simp [hQ]))

/-! ### Claims about `resolve_partition` -/

/-- C1. Explicit-match precedence: whenever `region` appears as an explicit
key of some partition `P` (with override `ov`) and no partition earlier in
catalog order lists it, `resolve_partition` returns `P`'s base outputs merged
with `ov` — for every regex engine, hence even if any partition's
`region_regex` (including `P`'s own) also matches the region: the explicit
tier is exhausted over all partitions before any regex is tried. -/
theorem claim_C1_explicit_precedence (engine : RegexEngine) (r : PartitionResolver)
    (region : String) (e : DiagnosticCollector) (pre post : List PartitionMetadata)
    (P : PartitionMetadata) (ov : PartitionOutputOverride)
    (hparts : r.partitions = pre ++ P :: post)
    (hpre : ∀ Q ∈ pre, hashGet Q.regions region = none)
    (hP : hashGet P.regions region = some ov) :
    r.resolve_partition engine region e = (some (merge_partition P ov), e) := by
  have hhead : (r.partitions.filterMap (fun part => part.explicit_match region)).head? =
      some (P, some ov) := by
    rw [hparts]
    apply filterMap_head_of_first
    · intro Q hQ
      simp [PartitionMetadata.explicit_match, hpre Q hQ]
    · simp [PartitionMetadata.explicit_match, hP]
  simpa using resolve_partition_explicit_some r engine region e P (some ov) hhead

/-- C2. Catalog-order first-match tie-break, in both tiers: when two or more
partitions match the same region in a tier (explicitly, or by regex when no
partition matches explicitly), the partition appearing earlier in the
resolver's partition sequence wins — never a "most specific" match. -/
theorem claim_C2_catalog_order_tie_break (engine : RegexEngine) (r : PartitionResolver)
    (region : String) (e : DiagnosticCollector) (pre post : List PartitionMetadata)
    (P : PartitionMetadata) :
    (∀ ov : PartitionOutputOverride, r.partitions = pre ++ P :: post →
      (∀ Q ∈ pre, hashGet Q.regions region = none) →
      hashGet P.regions region = some ov →
      (∃ Q ∈ post, ∃ ov', hashGet Q.regions region = some ov') →
      r.resolve_partition engine region e = (some (merge_partition P ov), e))
    ∧ (r.partitions = pre ++ P :: post →
      (∀ Q ∈ r.partitions, hashGet Q.regions region = none) →
      (∀ Q ∈ pre, engine.is_match Q.region_regex region = false) →
      engine.is_match P.region_regex region = true →
      (∃ Q ∈ post, engine.is_match Q.region_regex region = true) →
      r.resolve_partition engine region e = (some (merge_partition P DEFAULT_OVERRIDE), e)) := by
  constructor
  · intro ov hparts hpre hP _htie
    have hhead : (r.partitions.filterMap (fun part => part.explicit_match region)).head? =
        some (P, some ov) := by
      rw [hparts]
      apply filterMap_head_of_first
      · intro Q hQ
        simp [PartitionMetadata.explicit_match, hpre Q hQ]
      · simp [PartitionMetadata.explicit_match, hP]
    simpa using resolve_partition_explicit_some r engine region e P (some ov) hhead
  · intro hparts hnoexp hpre hP _htie
    have hexp : (r.partitions.filterMap (fun part => part.explicit_match region)).head? =
        none := (explicit_head_none_iff _ _).mpr hnoexp
    have hhead : (r.partitions.filterMap (fun part => part.regex_match engine region)).head? =
        some (P, none) := by
      rw [hparts]
      apply filterMap_head_of_first
      · intro Q hQ
        simp [PartitionMetadata.regex_match, hpre Q hQ]
      · simp [PartitionMetadata.regex_match, hP]
    simpa using resolve_partition_regex_some r engine region e P none hexp hhead

/-- C3. Merge totality and identity: whenever `resolve_partition` returns a
`Partition`, there is a matched base partition in the catalog and a selected
override such that every one of the six fields equals the override's value
when present and the base partition's `outputs` value otherwise; merging with
the empty override yields exactly the base `outputs` (and every resolved
`Partition` has all six fields populated, by totality of the record type). -/
theorem claim_C3_merge_totality (engine : RegexEngine) (r : PartitionResolver)
    (region : String) (e : DiagnosticCollector) (p : Partition) (e' : DiagnosticCollector)
    (h : r.resolve_partition engine region e = (some p, e')) :
    ∃ base ∈ r.partitions, ∃ ov : PartitionOutputOverride,
      (p.name = ov.name.getD base.outputs.name ∧
       p.dns_suffix = ov.dns_suffix.getD base.outputs.dns_suffix ∧
       p.dual_stack_dns_suffix = ov.dual_stack_dns_suffix.getD base.outputs.dual_stack_dns_suffix ∧
       p.supports_fips = ov.supports_fips.getD base.outputs.supports_fips ∧
       p.supports_dual_stack = ov.supports_dual_stack.getD base.outputs.supports_dual_stack ∧
       p.implicit_global_region = ov.implicit_global_region.getD base.outputs.implicit_global_region) ∧
      (ov = DEFAULT_OVERRIDE →
        (p.name = base.outputs.name ∧
         p.dns_suffix = base.outputs.dns_suffix ∧
         p.dual_stack_dns_suffix = base.outputs.dual_stack_dns_suffix ∧
         p.supports_fips = base.outputs.supports_fips ∧
         p.supports_dual_stack = base.outputs.supports_dual_stack ∧
         p.implicit_global_region = base.outputs.implicit_global_region)) := by
  cases hexp : (r.partitions.filterMap (fun part => part.explicit_match region)).head? with
  | some pair =>
    obtain ⟨base, ovq⟩ := pair
    have hres := resolve_partition_explicit_some r engine region e base ovq hexp
    rw [hres] at h
    have hmem : (base, ovq) ∈ r.partitions.filterMap (fun part => part.explicit_match region) :=
      List.mem_of_mem_head? (by rw [hexp]; rfl)
    obtain ⟨Q, hQ, hQeq⟩ := List.mem_filterMap.mp hmem
    have hbase : Q = base := by
      unfold PartitionMetadata.explicit_match at hQeq
      cases hget : hashGet Q.regions region with
      | none => rw [hget] at hQeq; simp at hQeq
      | some o => rw [hget] at hQeq; simp at hQeq; exact hQeq.1
    subst hbase
    have hp : p = merge_partition Q (ovq.getD DEFAULT_OVERRIDE) :=
      (Option.some.inj (congrArg Prod.fst h)).symm
    refine ⟨Q, hQ, ovq.getD DEFAULT_OVERRIDE, ?_, ?_⟩
    · rw [hp]; exact ⟨rfl, rfl, rfl, rfl, rfl, rfl⟩
    · intro hov
      rw [hp, hov]
      simp [merge_partition, DEFAULT_OVERRIDE]
  | none =>
    cases hreg : (r.partitions.filterMap (fun part => part.regex_match engine region)).head? with
    | some pair =>
      obtain ⟨base, ovq⟩ := pair
      have hres := resolve_partition_regex_some r engine region e base ovq hexp hreg
      rw [hres] at h
      have hmem : (base, ovq) ∈ r.partitions.filterMap (fun part => part.regex_match engine region) :=
        List.mem_of_mem_head? (by rw [hreg]; rfl)
      obtain ⟨Q, hQ, hQeq⟩ := List.mem_filterMap.mp hmem
      have hbase : Q = base := by
        unfold PartitionMetadata.regex_match at hQeq
        by_cases hm : engine.is_match Q.region_regex region
        · rw [if_pos hm] at hQeq
          exact congrArg Prod.fst (Option.some.inj hQeq)
        · rw [if_neg hm] at hQeq
          exact absurd hQeq (by simp)
      subst hbase
      have hp : p = merge_partition Q (ovq.getD DEFAULT_OVERRIDE) :=
        (Option.some.inj (congrArg Prod.fst h)).symm
      refine ⟨Q, hQ, ovq.getD DEFAULT_OVERRIDE, ?_, ?_⟩
      · rw [hp]; exact ⟨rfl, rfl, rfl, rfl, rfl, rfl⟩
      · intro hov
        rw [hp, hov]
        simp [merge_partition, DEFAULT_OVERRIDE]
    | none =>
      cases hfind : r.partitions.find? (fun p => p.id == "aws") with
      | some base =>
        have hres := resolve_partition_default r engine region e base hexp hreg hfind
        rw [hres] at h
        have hQ : base ∈ r.partitions := List.mem_of_find?_eq_some hfind
        have hp : p = merge_partition base DEFAULT_OVERRIDE :=
          (Option.some.inj (congrArg Prod.fst h)).symm
        refine ⟨base, hQ, DEFAULT_OVERRIDE, ?_, ?_⟩
        · rw [hp]; exact ⟨rfl, rfl, rfl, rfl, rfl, rfl⟩
        · intro _
          rw [hp]
          simp [merge_partition, DEFAULT_OVERRIDE]
      | none =>
        have hres := resolve_partition_fail r engine region e hexp hreg hfind
        rw [hres] at h
        exact absurd (congrArg Prod.fst h) (by simp)

/-- C4. Default fallback: when no partition lists the region explicitly and
no partition's regex matches it, `resolve_partition` returns the merged
output (no override) of the first partition whose `id` is `"aws"`. -/
theorem claim_C4_default_fallback (engine : RegexEngine) (r : PartitionResolver)
    (region : String) (e : DiagnosticCollector) (pre post : List PartitionMetadata)
    (A : PartitionMetadata)
    (hexp : ∀ P ∈ r.partitions, hashGet P.regions region = none)
    (hreg : ∀ P ∈ r.partitions, engine.is_match P.region_regex region = false)
    (hparts : r.partitions = pre ++ A :: post)
    (hpre : ∀ Q ∈ pre, Q.id ≠ "aws")
    (hA : A.id = "aws") :
    r.resolve_partition engine region e = (some (merge_partition A DEFAULT_OVERRIDE), e) := by
  have hfind : r.partitions.find? (fun p => p.id == "aws") = some A := by
    rw [hparts]
    apply find_first
    · intro Q hQ
      simpa using hpre Q hQ
    · simpa using hA
  exact resolve_partition_default r engine region e A
    ((explicit_head_none_iff _ _).mpr hexp)
    ((regex_head_none_iff _ _ _).mpr hreg) hfind

/-- C5. No-default failure is the only failure mode: `resolve_partition`
returns `none` exactly when the region matches no partition explicitly, no
partition by regex, and no partition has id `"aws"`; in that case exactly the
diagnostic message "no AWS partition!" is appended to the caller's collector.
(The model is a total function, so no panic is possible by construction.) -/
theorem claim_C5_no_default_failure (engine : RegexEngine) (r : PartitionResolver)
    (region : String) (e : DiagnosticCollector) :
    ((r.resolve_partition engine region e).1 = none ↔
      ((∀ P ∈ r.partitions, hashGet P.regions region = none) ∧
       (∀ P ∈ r.partitions, engine.is_match P.region_regex region = false) ∧
       (∀ P ∈ r.partitions, ¬P.id = "aws")))
    ∧ ((r.resolve_partition engine region e).1 = none →
       (r.resolve_partition engine region e).2.errors = e.errors ++ ["no AWS partition!"]) := by
  cases hexp : (r.partitions.filterMap (fun part => part.explicit_match region)).head? with
  | some pair =>
    obtain ⟨base, ovq⟩ := pair
    rw [resolve_partition_explicit_some r engine region e base ovq hexp]
    constructor
    · constructor
      · intro hnone; exact absurd hnone (by simp)
      · rintro ⟨h1, -, -⟩
        exfalso
        have hmem : (base, ovq) ∈ r.partitions.filterMap (fun part => part.explicit_match region) :=
          List.mem_of_mem_head? (by rw [hexp]; rfl)
        obtain ⟨Q, hQ, hQeq⟩ := List.mem_filterMap.mp hmem
        unfold PartitionMetadata.explicit_match at hQeq
        rw [h1 Q hQ] at hQeq
        simp at hQeq
    · intro hnone; exact absurd hnone (by simp)
  | none =>
    cases hreg : (r.partitions.filterMap (fun part => part.regex_match engine region)).head? with
    | some pair =>
      obtain ⟨base, ovq⟩ := pair
      rw [resolve_partition_regex_some r engine region e base ovq hexp hreg]
      constructor
      · constructor
        · intro hnone; exact absurd hnone (by simp)
        · rintro ⟨-, h2, -⟩
          exfalso
          have hmem : (base, ovq) ∈ r.partitions.filterMap (fun part => part.regex_match engine region) :=
            List.mem_of_mem_head? (by rw [hreg]; rfl)
          obtain ⟨Q, hQ, hQeq⟩ := List.mem_filterMap.mp hmem
          unfold PartitionMetadata.regex_match at hQeq
          rw [if_neg (by simp [h2 Q hQ])] at hQeq
          simp at hQeq
      · intro hnone; exact absurd hnone (by simp)
    | none =>
      cases hfind : r.partitions.find? (fun p => p.id == "aws") with
      | some base =>
        rw [resolve_partition_default r engine region e base hexp hreg hfind]
        constructor
        · constructor
          · intro hnone; exact absurd hnone (by simp)
          · rintro ⟨-, -, h3⟩
            exfalso
            have hQ : base ∈ r.partitions := List.mem_of_find?_eq_some hfind
            have hid := List.find?_some hfind
            exact h3 base hQ (by simpa using hid)
        · intro hnone; exact absurd hnone (by simp)
      | none =>
        rw [resolve_partition_fail r engine region e hexp hreg hfind]
        refine ⟨⟨fun _ => ⟨?_, ?_, ?_⟩, fun _ => rfl⟩, fun _ => rfl⟩
        · exact (explicit_head_none_iff _ _).mp hexp
        · exact (regex_head_none_iff _ _ _).mp hreg
        · intro P hP
          have := List.find?_eq_none.mp hfind P hP
          simpa using this

/-- C9. Diagnostic frame on success: when `resolve_partition` returns `some`,
the caller's collector is returned unchanged; a message is appended only on
the `none` path, and then it is exactly the single message
"no AWS partition!". -/
theorem claim_C9_diagnostic_frame (engine : RegexEngine) (r : PartitionResolver)
    (region : String) (e : DiagnosticCollector) :
    (∀ p : Partition, (r.resolve_partition engine region e).1 = some p →
      (r.resolve_partition engine region e).2 = e)
    ∧ ((r.resolve_partition engine region e).1 = none →
       (r.resolve_partition engine region e).2 =
         { errors := e.errors ++ ["no AWS partition!"] }) := by
  cases hexp : (r.partitions.filterMap (fun part => part.explicit_match region)).head? with
  | some pair =>
    obtain ⟨base, ovq⟩ := pair
    rw [resolve_partition_explicit_some r engine region e base ovq hexp]
    exact ⟨fun p _ => rfl, fun hnone => absurd hnone (by simp)⟩
  | none =>
    cases hreg : (r.partitions.filterMap (fun part => part.regex_match engine region)).head? with
    | some pair =>
      obtain ⟨base, ovq⟩ := pair
      rw [resolve_partition_regex_some r engine region e base ovq hexp hreg]
      exact ⟨fun p _ => rfl, fun hnone => absurd hnone (by simp)⟩
    | none =>
      cases hfind : r.partitions.find? (fun p => p.id == "aws") with
      | some base =>
        rw [resolve_partition_default r engine region e base hexp hreg hfind]
        exact ⟨fun p _ => rfl, fun hnone => absurd hnone (by simp)⟩
      | none =>
        rw [resolve_partition_fail r engine region e hexp hreg hfind]
        exact ⟨fun p hp => absurd hp (by simp), fun _ => rfl⟩

/-! ### External token-stream helpers (modelled from the spec) -/

/-- Modelled from the spec: `expect_start_object` from the external
token-stream abstraction (aws-smithy-json) — consume exactly one
`StartObject` token. -/
def expect_start_object : List Token → Except DeserError (List Token)
  | Token.startObject :: ts => Except.ok ts
  | _ => Except.error (DeserError.custom "expected start object")

/-- Modelled from the spec: `expect_string_or_null` — consume one string or
null token. -/
def expect_string_or_null : List Token → Except DeserError (Option String × List Token)
  | Token.valueString s :: ts => Except.ok (some s, ts)
  | Token.valueNull :: ts => Except.ok (none, ts)
  | _ => Except.error (DeserError.custom "expected string or null")

/-- Modelled from the spec: `expect_bool_or_null` — consume one bool or null
token. -/
def expect_bool_or_null : List Token → Except DeserError (Option Bool × List Token)
  | Token.valueBool b :: ts => Except.ok (some b, ts)
  | Token.valueNull :: ts => Except.ok (none, ts)
  | _ => Except.error (DeserError.custom "expected bool or null")

/-- `token_to_str` from the source: convert the next token to an optional
string (unescaping is performed inside the external tokenizer model, whose
string payloads are already unescaped). -/
def token_to_str (ts : List Token) : Except DeserError (Option String × List Token) :=
  expect_string_or_null ts

/-- Modelled from the spec: the recursion of `skip_value`, tracking bracket
depth. -/
def skip_value_aux : List Token → Nat → Except DeserError (List Token)
  | [], _ => Except.error (DeserError.custom "eof while skipping value")
  | t :: ts, depth =>
    match t with
    | Token.startObject => skip_value_aux ts (depth + 1)
    | Token.startArray => skip_value_aux ts (depth + 1)
    | Token.endObject =>
      if depth = 1 then Except.ok ts
      else if depth = 0 then Except.error (DeserError.custom "unexpected close while skipping value")
      else skip_value_aux ts (depth - 1)
    | Token.endArray =>
      if depth = 1 then Except.ok ts
      else if depth = 0 then Except.error (DeserError.custom "unexpected close while skipping value")
      else skip_value_aux ts (depth - 1)
    | Token.objectKey _ =>
      if depth = 0 then Except.error (DeserError.custom "unexpected key while skipping value")
      else skip_value_aux ts depth
    | _ => if depth = 0 then Except.ok ts else skip_value_aux ts depth

/-- Modelled from the spec: `skip_value` from the external token-stream
abstraction — consume exactly one complete JSON value (scalar, object or
array); this is what makes unknown keys "skipped, not rejected". -/
def skip_value (ts : List Token) : Except DeserError (List Token) :=
  skip_value_aux ts 0

/-! ### Consumption bounds for the token-stream helpers -/

theorem expect_string_or_null_length {ts : List Token} {v ts'}
    (h : expect_string_or_null ts = Except.ok (v, ts')) : ts'.length < ts.length := by
  unfold expect_string_or_null at h
  split at h
  · injection h with hp; injection hp with h1 h2; subst h2; simp
  · injection h with hp; injection hp with h1 h2; subst h2; simp
  · exact Except.noConfusion h

theorem token_to_str_length {ts : List Token} {v ts'}
    (h : token_to_str ts = Except.ok (v, ts')) : ts'.length < ts.length :=
  expect_string_or_null_length h

theorem expect_bool_or_null_length {ts : List Token} {v ts'}
    (h : expect_bool_or_null ts = Except.ok (v, ts')) : ts'.length < ts.length := by
  unfold expect_bool_or_null at h
  split at h
  · injection h with hp; injection hp with h1 h2; subst h2; simp
  · injection h with hp; injection hp with h1 h2; subst h2; simp
  · exact Except.noConfusion h

theorem skip_value_aux_length : ∀ (ts : List Token) (depth : Nat) {ts'},
    skip_value_aux ts depth = Except.ok ts' → ts'.length < ts.length := by
  intro ts
  induction ts with
  | nil => intro depth ts' h; exact Except.noConfusion h
  | cons t rest ih =>
    intro depth ts' h
    unfold skip_value_aux at h
    split at h
    · have := ih _ h; simp only [List.length_cons]; omega
    · have := ih _ h; simp only [List.length_cons]; omega
    · split at h
      · injection h with h1; subst h1; simp
      · split at h
        · exact Except.noConfusion h
        · have := ih _ h; simp only [List.length_cons]; omega
    · split at h
      · injection h with h1; subst h1; simp
      · split at h
        · exact Except.noConfusion h
        · have := ih _ h; simp only [List.length_cons]; omega
    · split at h
      · exact Except.noConfusion h
      · have := ih _ h; simp only [List.length_cons]; omega
    · split at h
      · injection h with h1; subst h1; simp
      · have := ih _ h; simp only [List.length_cons]; omega

theorem skip_value_length {ts : List Token} {ts'}
    (h : skip_value ts = Except.ok ts') : ts'.length < ts.length :=
  skip_value_aux_length ts 0 h

/-! ### The builder types and their fail-fast `build` -/

/-- `PartitionOutputOverride::into_partition_output`: require all six fields
(`ok_or` chained with `?`), reporting the first missing one. -/
def PartitionOutputOverride.into_partition_output (self : PartitionOutputOverride) :
    Except String PartitionOutput :=
  match self.name with
  | none => Except.error "missing name"
  | some name =>
    match self.dns_suffix with
    | none => Except.error "missing dnsSuffix"
    | some dns_suffix =>
      match self.dual_stack_dns_suffix with
      | none => Except.error "missing dual_stackDnsSuffix"
      | some dual_stack_dns_suffix =>
        match self.supports_fips with
        | none => Except.error "missing supports fips"
        | some supports_fips =>
          match self.supports_dual_stack with
          | none => Except.error "missing supportsDualstack"
          | some supports_dual_stack =>
            match self.implicit_global_region with
            | none => Except.error "missing implicitGlobalRegion"
            | some implicit_global_region =>
              Except.ok
                { name := name
                  dns_suffix := dns_suffix
                  dual_stack_dns_suffix := dual_stack_dns_suffix
                  supports_fips := supports_fips
                  supports_dual_stack := supports_dual_stack
                  implicit_global_region := implicit_global_region }

/-- Struct `PartitionMetadataBuilder` (all fields optional or defaulted;
`regions` defaults to the empty map). -/
structure PartitionMetadataBuilder where
  id : Option String := none
  region_regex : Option String := none
  regions : List (String × PartitionOutputOverride) := []
  outputs : Option PartitionOutputOverride := none
deriving DecidableEq

/-- `PartitionMetadataBuilder::build`. In the source this function calls
`expect` on `id`, `region_regex` and `outputs`, and `expect` on the result of
`into_partition_output` — each of these is a runtime panic, modelled by
`DeserError.panic` carrying the source's exact expect message. -/
def PartitionMetadataBuilder.build (self : PartitionMetadataBuilder) :
    Except DeserError PartitionMetadata :=
  match self.id with
  | none => Except.error (DeserError.panic "id must be defined")
  | some id =>
    match self.region_regex with
    | none => Except.error (DeserError.panic "region regex must be defined")
    | some region_regex =>
      match self.outputs with
      | none => Except.error (DeserError.panic "outputs must be defined")
      | some outputs_override =>
        match outputs_override.into_partition_output with
        | Except.error _ => Except.error (DeserError.panic "missing fields on outputs")
        | Except.ok outputs =>
          Except.ok
            { id := id
              region_regex := region_regex
              regions := self.regions
              outputs := outputs }

/-! ### The JSON deserializers (`mod deser`) -/

/-- The field loop of `deser_outputs`: the six known output keys are parsed,
unknown keys are skipped via `skip_value`. -/
def deser_outputs_loop (builder : PartitionOutputOverride) (ts : List Token) :
    Except DeserError (PartitionOutputOverride × List Token) :=
  match ts with
  | Token.endObject :: rest => Except.ok (builder, rest)
  | Token.objectKey key :: rest =>
    if key = "name" then
      match _h : token_to_str rest with
      | Except.ok (v, rest') => deser_outputs_loop { builder with name := v } rest'
      | Except.error err => Except.error err
    else if key = "dnsSuffix" then
      match _h : token_to_str rest with
      | Except.ok (v, rest') => deser_outputs_loop { builder with dns_suffix := v } rest'
      | Except.error err => Except.error err
    else if key = "dualStackDnsSuffix" then
      match _h : token_to_str rest with
      | Except.ok (v, rest') => deser_outputs_loop { builder with dual_stack_dns_suffix := v } rest'
      | Except.error err => Except.error err
    else if key = "supportsFIPS" then
      match _h : expect_bool_or_null rest with
      | Except.ok (v, rest') => deser_outputs_loop { builder with supports_fips := v } rest'
      | Except.error err => Except.error err
    else if key = "supportsDualStack" then
      match _h : expect_bool_or_null rest with
      | Except.ok (v, rest') => deser_outputs_loop { builder with supports_dual_stack := v } rest'
      | Except.error err => Except.error err
    else if key = "implicitGlobalRegion" then
      match _h : token_to_str rest with
      | Except.ok (v, rest') => deser_outputs_loop { builder with implicit_global_region := v } rest'
      | Except.error err => Except.error err
    else
      match _h : skip_value rest with
      | Except.ok rest' => deser_outputs_loop builder rest'
      | Except.error err => Except.error err
  | _ => Except.error (DeserError.custom "expected object key or end object")
termination_by ts.length
decreasing_by
  all_goals simp only [List.length_cons]
  all_goals first
    | (have hx := token_to_str_length _h; omega)
    | (have hx := expect_bool_or_null_length _h; omega)
    | (have hx := skip_value_length _h; omega)

/-- `deser_outputs`: an output object (a `PartitionOutputOverride` builder
filled from the six known keys). On success the source always returns
`Ok(Some(builder))`. -/
def deser_outputs (ts : List Token) : Except DeserError (Option PartitionOutputOverride × List Token) :=
  match ts with
  | Token.startObject :: rest =>
    match deser_outputs_loop {} rest with
    | Except.ok (builder, rest') => Except.ok (some builder, rest')
    | Except.error err => Except.error err
  | _ => Except.error (DeserError.custom "expected start object")

theorem deser_outputs_loop_length : ∀ (n : Nat) (b : PartitionOutputOverride)
    (ts : List Token), ts.length ≤ n → ∀ {r ts'},
    deser_outputs_loop b ts = Except.ok (r, ts') → ts'.length < ts.length := by
  intro n
  induction n with
  | zero =>
    intro b ts hlen r ts' h
    have hts : ts = [] := List.eq_nil_of_length_eq_zero (Nat.le_zero.mp hlen)
    subst hts
    unfold deser_outputs_loop at h
    exact Except.noConfusion h
  | succ n ih =>
    intro b ts hlen r ts' h
    unfold deser_outputs_loop at h
    split at h
    · injection h with hp; injection hp with h1 h2; subst h2; simp
    · simp only [List.length_cons] at hlen ⊢
      repeat' split at h
      all_goals first
        | exact Except.noConfusion h
        | (rename_i v rest' heq
           first
             | have hc := token_to_str_length heq
             | have hc := expect_bool_or_null_length heq
           simp only [List.length_cons] at hc
           have := ih _ rest' (by omega) h
           omega)
        | (rename_i rest' heq
           have hc := skip_value_length heq
           simp only [List.length_cons] at hc
           have := ih _ rest' (by omega) h
           omega)
    · exact Except.noConfusion h

theorem deser_outputs_loop_len {b : PartitionOutputOverride} {ts : List Token} {r ts'}
    (h : deser_outputs_loop b ts = Except.ok (r, ts')) : ts'.length < ts.length :=
  deser_outputs_loop_length ts.length b ts (Nat.le_refl _) h

theorem deser_outputs_length {ts : List Token} {v ts'}
    (h : deser_outputs ts = Except.ok (v, ts')) : ts'.length < ts.length := by
  unfold deser_outputs at h
  split at h
  · split at h
    · injection h with hp; injection hp with h1 h2; subst h2
      have hc := deser_outputs_loop_len (by assumption)
      simp only [List.length_cons]
      omega
    · exact Except.noConfusion h
  · exact Except.noConfusion h

/-- The entry loop of `deser_explicit_regions`: each key is a region name,
its value is parsed by `deser_outputs`, and present values are inserted into
the map (`if let Some(value) = value { map.insert(key, value) }`). -/
def deser_explicit_regions_loop (map : List (String × PartitionOutputOverride))
    (ts : List Token) :
    Except DeserError (List (String × PartitionOutputOverride) × List Token) :=
  match ts with
  | Token.endObject :: rest => Except.ok (map, rest)
  | Token.objectKey key :: rest =>
    match _h : deser_outputs rest with
    | Except.ok (some v, rest') => deser_explicit_regions_loop (hashInsert map key v) rest'
    | Except.ok (none, rest') => deser_explicit_regions_loop map rest'
    | Except.error err => Except.error err
  | _ => Except.error (DeserError.custom "expected object key or end object")
termination_by ts.length
decreasing_by
  all_goals simp only [List.length_cons]
  all_goals (have hx := deser_outputs_length _h; omega)

/-- `deser_explicit_regions`. -/
def deser_explicit_regions (ts : List Token) :
    Except DeserError (List (String × PartitionOutputOverride) × List Token) :=
  match ts with
  | Token.startObject :: rest => deser_explicit_regions_loop [] rest
  | _ => Except.error (DeserError.custom "expected start object")

theorem deser_explicit_regions_loop_length : ∀ (n : Nat)
    (m : List (String × PartitionOutputOverride)) (ts : List Token), ts.length ≤ n →
    ∀ {r ts'}, deser_explicit_regions_loop m ts = Except.ok (r, ts') →
    ts'.length < ts.length := by
  intro n
  induction n with
  | zero =>
    intro m ts hlen r ts' h
    have hts : ts = [] := List.eq_nil_of_length_eq_zero (Nat.le_zero.mp hlen)
    subst hts
    unfold deser_explicit_regions_loop at h
    exact Except.noConfusion h
  | succ n ih =>
    intro m ts hlen r ts' h
    unfold deser_explicit_regions_loop at h
    split at h
    · injection h with hp; injection hp with h1 h2; subst h2; simp
    · simp only [List.length_cons] at hlen ⊢
      repeat' split at h
      all_goals first
        | exact Except.noConfusion h
        | (have hc := deser_outputs_length (by assumption)
           have := ih _ _ (by omega) h
           omega)
    · exact Except.noConfusion h

theorem deser_explicit_regions_length {ts : List Token} {m ts'}
    (h : deser_explicit_regions ts = Except.ok (m, ts')) : ts'.length < ts.length := by
  unfold deser_explicit_regions at h
  split at h
  · have hc := deser_explicit_regions_loop_length _ [] _ (Nat.le_refl _) h
    simp only [List.length_cons]
    omega
  · exact Except.noConfusion h

/-- The field loop of `deser_partition`: the keys `id`, `regionRegex`,
`regions` and `outputs` are parsed, unknown keys are skipped. Compiling the
`regionRegex` pattern is delegated to the engine; a failed compile is the
catalog error "invalid regex". -/
def deser_partition_loop (engine : RegexEngine) (builder : PartitionMetadataBuilder)
    (ts : List Token) : Except DeserError (PartitionMetadataBuilder × List Token) :=
  match ts with
  | Token.endObject :: rest => Except.ok (builder, rest)
  | Token.objectKey key :: rest =>
    if key = "id" then
      match _h : token_to_str rest with
      | Except.ok (v, rest') => deser_partition_loop engine { builder with id := v } rest'
      | Except.error err => Except.error err
    else if key = "regionRegex" then
      match _h : token_to_str rest with
      | Except.ok (some pat, rest') =>
        if engine.compile_ok pat then
          deser_partition_loop engine { builder with region_regex := some pat } rest'
        else Except.error (DeserError.custom "invalid regex")
      | Except.ok (none, rest') =>
        deser_partition_loop engine { builder with region_regex := none } rest'
      | Except.error err => Except.error err
    else if key = "regions" then
      match _h : deser_explicit_regions rest with
      | Except.ok (m, rest') => deser_partition_loop engine { builder with regions := m } rest'
      | Except.error err => Except.error err
    else if key = "outputs" then
      match _h : deser_outputs rest with
      | Except.ok (v, rest') => deser_partition_loop engine { builder with outputs := v } rest'
      | Except.error err => Except.error err
    else
      match _h : skip_value rest with
      | Except.ok rest' => deser_partition_loop engine builder rest'
      | Except.error err => Except.error err
  | _ => Except.error (DeserError.custom "expected object key or end object")
termination_by ts.length
decreasing_by
  all_goals simp only [List.length_cons]
  all_goals first
    | (have hx := token_to_str_length _h; omega)
    | (have hx := deser_explicit_regions_length _h; omega)
    | (have hx := deser_outputs_length _h; omega)
    | (have hx := skip_value_length _h; omega)

/-- `deser_partition`: a partition object; at the closing brace the builder
is finalized by the fail-fast `build`. -/
def deser_partition (engine : RegexEngine) (ts : List Token) :
    Except DeserError (PartitionMetadata × List Token) :=
  match ts with
  | Token.startObject :: rest =>
    match deser_partition_loop engine {} rest with
    | Except.ok (builder, rest') =>
      match builder.build with
      | Except.ok meta => Except.ok (meta, rest')
      | Except.error err => Except.error err
    | Except.error err => Except.error err
  | _ => Except.error (DeserError.custom "expected start object")

theorem deser_partition_loop_length : ∀ (n : Nat) (engine : RegexEngine)
    (b : PartitionMetadataBuilder) (ts : List Token), ts.length ≤ n →
    ∀ {r ts'}, deser_partition_loop engine b ts = Except.ok (r, ts') →
    ts'.length < ts.length := by
  intro n
  induction n with
  | zero =>
    intro engine b ts hlen r ts' h
    have hts : ts = [] := List.eq_nil_of_length_eq_zero (Nat.le_zero.mp hlen)
    subst hts
    unfold deser_partition_loop at h
    exact Except.noConfusion h
  | succ n ih =>
    intro engine b ts hlen r ts' h
    unfold deser_partition_loop at h
    split at h
    · injection h with hp; injection hp with h1 h2; subst h2; simp
    · simp only [List.length_cons] at hlen ⊢
      repeat' split at h
      all_goals first
        | exact Except.noConfusion h
        | (first
            | have hc := token_to_str_length (by assumption)
            | have hc := deser_explicit_regions_length (by assumption)
            | have hc := deser_outputs_length (by assumption)
            | have hc := skip_value_length (by assumption)
           have := ih _ _ _ (by omega) h
           omega)
    · exact Except.noConfusion h

theorem deser_partition_length {engine : RegexEngine} {ts : List Token} {m ts'}
    (h : deser_partition engine ts = Except.ok (m, ts')) : ts'.length < ts.length := by
  unfold deser_partition at h
  split at h
  · split at h
    · split at h
      · injection h with hp; injection hp with h1 h2; subst h2
        have hc := deser_partition_loop_length _ engine {} _ (Nat.le_refl _) (by assumption)
        simp only [List.length_cons]
        omega
      · exact Except.noConfusion h
    · exact Except.noConfusion h
  · exact Except.noConfusion h

/-- The item loop of `deser_partitions`: peek for the closing bracket,
otherwise parse one partition object and push it. -/
def deser_partitions_items (engine : RegexEngine) (items : List PartitionMetadata)
    (ts : List Token) : Except DeserError (List PartitionMetadata × List Token) :=
  match ts with
  | Token.endArray :: rest => Except.ok (items, rest)
  | other =>
    match _h : deser_partition engine other with
    | Except.ok (item, rest') => deser_partitions_items engine (items ++ [item]) rest'
    | Except.error err => Except.error err
termination_by ts.length
decreasing_by
  all_goals (have hx := deser_partition_length _h; omega)

/-- `deser_partitions`: the array of partition objects. -/
def deser_partitions (engine : RegexEngine) (ts : List Token) :
    Except DeserError (List PartitionMetadata × List Token) :=
  match ts with
  | Token.startArray :: rest => deser_partitions_items engine [] rest
  | _ => Except.error (DeserError.custom "expected start array")

theorem deser_partitions_items_length : ∀ (n : Nat) (engine : RegexEngine)
    (items : List PartitionMetadata) (ts : List Token), ts.length ≤ n →
    ∀ {r ts'}, deser_partitions_items engine items ts = Except.ok (r, ts') →
    ts'.length < ts.length := by
  intro n
  induction n with
  | zero =>
    intro engine items ts hlen r ts' h
    have hts : ts = [] := List.eq_nil_of_length_eq_zero (Nat.le_zero.mp hlen)
    subst hts
    unfold deser_partitions_items at h
    exact Except.noConfusion h
  | succ n ih =>
    intro engine items ts hlen r ts' h
    unfold deser_partitions_items at h
    split at h
    · injection h with hp; injection hp with h1 h2; subst h2; simp
    · repeat' split at h
      all_goals first
        | exact Except.noConfusion h
        | (have hc := deser_partition_length (by assumption)
           have := ih _ _ _ (by omega) h
           omega)

theorem deser_partitions_length {engine : RegexEngine} {ts : List Token} {m ts'}
    (h : deser_partitions engine ts = Except.ok (m, ts')) : ts'.length < ts.length := by
  unfold deser_partitions at h
  split at h
  · have hc := deser_partitions_items_length _ engine [] _ (Nat.le_refl _) h
    simp only [List.length_cons]
    omega
  · exact Except.noConfusion h

/-- The key loop of `deserialize_partitions`: only the top-level key
"partitions" is recognized; every other key's value is skipped. -/
def deserialize_partitions_loop (engine : RegexEngine)
    (resolver : Option PartitionResolver) (ts : List Token) :
    Except DeserError (Option PartitionResolver × List Token) :=
  match ts with
  | Token.endObject :: rest => Except.ok (resolver, rest)
  | Token.objectKey key :: rest =>
    if key = "partitions" then
      match _h : deser_partitions engine rest with
      | Except.ok (parts, rest') =>
        deserialize_partitions_loop engine (some (PartitionResolver.from_partitions parts)) rest'
      | Except.error err => Except.error err
    else
      match _h : skip_value rest with
      | Except.ok rest' => deserialize_partitions_loop engine resolver rest'
      | Except.error err => Except.error err
  | _ => Except.error (DeserError.custom "expected object key or end object")
termination_by ts.length
decreasing_by
  all_goals simp only [List.length_cons]
  all_goals first
    | (have hx := deser_partitions_length _h; omega)
    | (have hx := skip_value_length _h; omega)

/-- `deserialize_partitions`: the top-level object; after the object closes,
trailing tokens are an error, then a missing "partitions" key is an error. -/
def deserialize_partitions (engine : RegexEngine) (ts : List Token) :
    Except DeserError PartitionResolver :=
  match expect_start_object ts with
  | Except.ok rest =>
    match deserialize_partitions_loop engine none rest with
    | Except.ok (resolver, trailing) =>
      if trailing.isEmpty then
        match resolver with
        | some r => Except.ok r
        | none => Except.error (DeserError.custom "did not find partitions array")
      else Except.error (DeserError.custom "found more JSON tokens after completing parsing")
    | Except.error err => Except.error err
  | Except.error err => Except.error err

/-- `PartitionResolver::new_from_json` (the input byte buffer is represented
by its token stream, produced by the external tokenizer model). -/
def PartitionResolver.new_from_json (engine : RegexEngine) (ts : List Token) :
    Except DeserError PartitionResolver :=
  deserialize_partitions engine ts

/-! ### Unfolding equations for the recursive loops

The loops above bind the result of each inner parser with `match _h : … with`
so that their termination proofs can use the consumption bounds. The
following equations restate each loop body with an ordinary `match`, which
rewriting tactics can evaluate. -/

theorem deser_outputs_loop_eq (builder : PartitionOutputOverride) (ts : List Token) :
    deser_outputs_loop builder ts =
      match ts with
      | Token.endObject :: rest => Except.ok (builder, rest)
      | Token.objectKey key :: rest =>
        if key = "name" then
          match token_to_str rest with
          | Except.ok (v, rest') => deser_outputs_loop { builder with name := v } rest'
          | Except.error err => Except.error err
        else if key = "dnsSuffix" then
          match token_to_str rest with
          | Except.ok (v, rest') => deser_outputs_loop { builder with dns_suffix := v } rest'
          | Except.error err => Except.error err
        else if key = "dualStackDnsSuffix" then
          match token_to_str rest with
          | Except.ok (v, rest') =>
            deser_outputs_loop { builder with dual_stack_dns_suffix := v } rest'
          | Except.error err => Except.error err
        else if key = "supportsFIPS" then
          match expect_bool_or_null rest with
          | Except.ok (v, rest') => deser_outputs_loop { builder with supports_fips := v } rest'
          | Except.error err => Except.error err
        else if key = "supportsDualStack" then
          match expect_bool_or_null rest with
          | Except.ok (v, rest') =>
            deser_outputs_loop { builder with supports_dual_stack := v } rest'
          | Except.error err => Except.error err
        else if key = "implicitGlobalRegion" then
          match token_to_str rest with
          | Except.ok (v, rest') =>
            deser_outputs_loop { builder with implicit_global_region := v } rest'
          | Except.error err => Except.error err
        else
          match skip_value rest with
          | Except.ok rest' => deser_outputs_loop builder rest'
          | Except.error err => Except.error err
      | _ => Except.error (DeserError.custom "expected object key or end object") := by
  rw [deser_outputs_loop.eq_def]
  split
  · rfl
  · split_ifs <;> split <;> (rename_i heq; rw [heq])
  · rfl

theorem deser_explicit_regions_loop_eq (map : List (String × PartitionOutputOverride))
    (ts : List Token) :
    deser_explicit_regions_loop map ts =
      match ts with
      | Token.endObject :: rest => Except.ok (map, rest)
      | Token.objectKey key :: rest =>
        match deser_outputs rest with
        | Except.ok (some v, rest') => deser_explicit_regions_loop (hashInsert map key v) rest'
        | Except.ok (none, rest') => deser_explicit_regions_loop map rest'
        | Except.error err => Except.error err
      | _ => Except.error (DeserError.custom "expected object key or end object") := by
  rw [deser_explicit_regions_loop.eq_def]
  split
  · rfl
  · split <;> (rename_i heq; rw [heq])
  · rfl

theorem deser_partition_loop_eq (engine : RegexEngine) (builder : PartitionMetadataBuilder)
    (ts : List Token) :
    deser_partition_loop engine builder ts =
      match ts with
      | Token.endObject :: rest => Except.ok (builder, rest)
      | Token.objectKey key :: rest =>
        if key = "id" then
          match token_to_str rest with
          | Except.ok (v, rest') => deser_partition_loop engine { builder with id := v } rest'
          | Except.error err => Except.error err
        else if key = "regionRegex" then
          match token_to_str rest with
          | Except.ok (some pat, rest') =>
            if engine.compile_ok pat then
              deser_partition_loop engine { builder with region_regex := some pat } rest'
            else Except.error (DeserError.custom "invalid regex")
          | Except.ok (none, rest') =>
            deser_partition_loop engine { builder with region_regex := none } rest'
          | Except.error err => Except.error err
        else if key = "regions" then
          match deser_explicit_regions rest with
          | Except.ok (m, rest') => deser_partition_loop engine { builder with regions := m } rest'
          | Except.error err => Except.error err
        else if key = "outputs" then
          match deser_outputs rest with
          | Except.ok (v, rest') => deser_partition_loop engine { builder with outputs := v } rest'
          | Except.error err => Except.error err
        else
          match skip_value rest with
          | Except.ok rest' => deser_partition_loop engine builder rest'
          | Except.error err => Except.error err
      | _ => Except.error (DeserError.custom "expected object key or end object") := by
  rw [deser_partition_loop.eq_def]
  split
  · rfl
  · split_ifs <;> split <;> (rename_i heq; rw [heq])
  · rfl

theorem deser_partitions_items_eq (engine : RegexEngine) (items : List PartitionMetadata)
    (ts : List Token) :
    deser_partitions_items engine items ts =
      match ts with
      | Token.endArray :: rest => Except.ok (items, rest)
      | other =>
        match deser_partition engine other with
        | Except.ok (item, rest') => deser_partitions_items engine (items ++ [item]) rest'
        | Except.error err => Except.error err := by
  rw [deser_partitions_items.eq_def]
  split
  · rfl
  · split <;> (rename_i heq; rw [heq])

theorem deserialize_partitions_loop_eq (engine : RegexEngine)
    (resolver : Option PartitionResolver) (ts : List Token) :
    deserialize_partitions_loop engine resolver ts =
      match ts with
      | Token.endObject :: rest => Except.ok (resolver, rest)
      | Token.objectKey key :: rest =>
        if key = "partitions" then
          match deser_partitions engine rest with
          | Except.ok (parts, rest') =>
            deserialize_partitions_loop engine
              (some (PartitionResolver.from_partitions parts)) rest'
          | Except.error err => Except.error err
        else
          match skip_value rest with
          | Except.ok rest' => deserialize_partitions_loop engine resolver rest'
          | Except.error err => Except.error err
      | _ => Except.error (DeserError.custom "expected object key or end object") := by
  rw [deserialize_partitions_loop.eq_def]
  split
  · rfl
  · split_ifs <;> split <;> (rename_i heq; rw [heq])
  · rfl

/-! ### Constructor-wise evaluation rules for the loops

Instances of the unfolding equations at constructor-headed token lists; they
let `simp only` evaluate the deserializer on concrete streams without
rewriting inside unreduced match arms. -/

theorem deser_outputs_loop_end (builder : PartitionOutputOverride) (rest : List Token) :
    deser_outputs_loop builder (Token.endObject :: rest) = Except.ok (builder, rest) :=
  deser_outputs_loop_eq builder _

theorem deser_outputs_loop_key (builder : PartitionOutputOverride) (key : String)
    (rest : List Token) :
    deser_outputs_loop builder (Token.objectKey key :: rest) =
      (if key = "name" then
        match token_to_str rest with
        | Except.ok (v, rest') => deser_outputs_loop { builder with name := v } rest'
        | Except.error err => Except.error err
      else if key = "dnsSuffix" then
        match token_to_str rest with
        | Except.ok (v, rest') => deser_outputs_loop { builder with dns_suffix := v } rest'
        | Except.error err => Except.error err
      else if key = "dualStackDnsSuffix" then
        match token_to_str rest with
        | Except.ok (v, rest') =>
          deser_outputs_loop { builder with dual_stack_dns_suffix := v } rest'
        | Except.error err => Except.error err
      else if key = "supportsFIPS" then
        match expect_bool_or_null rest with
        | Except.ok (v, rest') => deser_outputs_loop { builder with supports_fips := v } rest'
        | Except.error err => Except.error err
      else if key = "supportsDualStack" then
        match expect_bool_or_null rest with
        | Except.ok (v, rest') =>
          deser_outputs_loop { builder with supports_dual_stack := v } rest'
        | Except.error err => Except.error err
      else if key = "implicitGlobalRegion" then
        match token_to_str rest with
        | Except.ok (v, rest') =>
          deser_outputs_loop { builder with implicit_global_region := v } rest'
        | Except.error err => Except.error err
      else
        match skip_value rest with
        | Except.ok rest' => deser_outputs_loop builder rest'
        | Except.error err => Except.error err) :=
  deser_outputs_loop_eq builder _

theorem deser_explicit_regions_loop_end (map : List (String × PartitionOutputOverride))
    (rest : List Token) :
    deser_explicit_regions_loop map (Token.endObject :: rest) = Except.ok (map, rest) :=
  deser_explicit_regions_loop_eq map _

theorem deser_explicit_regions_loop_key (map : List (String × PartitionOutputOverride))
    (key : String) (rest : List Token) :
    deser_explicit_regions_loop map (Token.objectKey key :: rest) =
      (match deser_outputs rest with
      | Except.ok (some v, rest') => deser_explicit_regions_loop (hashInsert map key v) rest'
      | Except.ok (none, rest') => deser_explicit_regions_loop map rest'
      | Except.error err => Except.error err) :=
  deser_explicit_regions_loop_eq map _

theorem deser_partition_loop_end (engine : RegexEngine) (builder : PartitionMetadataBuilder)
    (rest : List Token) :
    deser_partition_loop engine builder (Token.endObject :: rest) =
      Except.ok (builder, rest) :=
  deser_partition_loop_eq engine builder _

theorem deser_partition_loop_key (engine : RegexEngine) (builder : PartitionMetadataBuilder)
    (key : String) (rest : List Token) :
    deser_partition_loop engine builder (Token.objectKey key :: rest) =
      (if key = "id" then
        match token_to_str rest with
        | Except.ok (v, rest') => deser_partition_loop engine { builder with id := v } rest'
        | Except.error err => Except.error err
      else if key = "regionRegex" then
        match token_to_str rest with
        | Except.ok (some pat, rest') =>
          if engine.compile_ok pat then
            deser_partition_loop engine { builder with region_regex := some pat } rest'
          else Except.error (DeserError.custom "invalid regex")
        | Except.ok (none, rest') =>
          deser_partition_loop engine { builder with region_regex := none } rest'
        | Except.error err => Except.error err
      else if key = "regions" then
        match deser_explicit_regions rest with
        | Except.ok (m, rest') => deser_partition_loop engine { builder with regions := m } rest'
        | Except.error err => Except.error err
      else if key = "outputs" then
        match deser_outputs rest with
        | Except.ok (v, rest') => deser_partition_loop engine { builder with outputs := v } rest'
        | Except.error err => Except.error err
      else
        match skip_value rest with
        | Except.ok rest' => deser_partition_loop engine builder rest'
        | Except.error err => Except.error err) :=
  deser_partition_loop_eq engine builder _

theorem deser_partitions_items_end (engine : RegexEngine) (items : List PartitionMetadata)
    (rest : List Token) :
    deser_partitions_items engine items (Token.endArray :: rest) = Except.ok (items, rest) :=
  deser_partitions_items_eq engine items _

theorem deser_partitions_items_start (engine : RegexEngine) (items : List PartitionMetadata)
    (rest : List Token) :
    deser_partitions_items engine items (Token.startObject :: rest) =
      (match deser_partition engine (Token.startObject :: rest) with
      | Except.ok (item, rest') => deser_partitions_items engine (items ++ [item]) rest'
      | Except.error err => Except.error err) :=
  deser_partitions_items_eq engine items _

theorem deserialize_partitions_loop_end (engine : RegexEngine)
    (resolver : Option PartitionResolver) (rest : List Token) :
    deserialize_partitions_loop engine resolver (Token.endObject :: rest) =
      Except.ok (resolver, rest) :=
  deserialize_partitions_loop_eq engine resolver _

theorem deserialize_partitions_loop_key (engine : RegexEngine)
    (resolver : Option PartitionResolver) (key : String) (rest : List Token) :
    deserialize_partitions_loop engine resolver (Token.objectKey key :: rest) =
      (if key = "partitions" then
        match deser_partitions engine rest with
        | Except.ok (parts, rest') =>
          deserialize_partitions_loop engine
            (some (PartitionResolver.from_partitions parts)) rest'
        | Except.error err => Except.error err
      else
        match skip_value rest with
        | Except.ok rest' => deserialize_partitions_loop engine resolver rest'
        | Except.error err => Except.error err) :=
  deserialize_partitions_loop_eq engine resolver _

/-- A trivially accepting regex engine used for concrete instances: every
pattern compiles; no region ever matches by regex. -/
def noMatchEngine : RegexEngine :=
  { compile_ok := fun _ => true
    is_match := fun _ _ => false }

/-- Token stream of the catalog
`{"partitions": [{"id": "x", "regionRegex": "a", "outputs": {"name": "n"}}]}`:
structurally well-formed JSON whose single partition omits five of the six
required output fields. -/
def missingOutputsCatalog : List Token :=
  [Token.startObject, Token.objectKey "partitions", Token.startArray,
   Token.startObject, Token.objectKey "id", Token.valueString "x",
   Token.objectKey "regionRegex", Token.valueString "a",
   Token.objectKey "outputs", Token.startObject,
   Token.objectKey "name", Token.valueString "n",
   Token.endObject, Token.endObject, Token.endArray, Token.endObject]

/-- Token run of the first partition object of the catalog fixture (`aws`). -/
def fixturePart1Tokens : List Token :=
  [Token.startObject,
   Token.objectKey "id", Token.valueString "aws",
   Token.objectKey "regionRegex", Token.valueString "^(us|eu|ap|sa|ca|me|af)-\\w+-\\d+$",
   Token.objectKey "regions", Token.startObject,
   Token.objectKey "af-south-1", Token.startObject, Token.endObject,
   Token.objectKey "af-east-1", Token.startObject, Token.endObject,
   Token.objectKey "ap-northeast-1", Token.startObject, Token.endObject,
   Token.objectKey "ap-northeast-2", Token.startObject, Token.endObject,
   Token.objectKey "ap-northeast-3", Token.startObject, Token.endObject,
   Token.objectKey "ap-south-1", Token.startObject, Token.endObject,
   Token.objectKey "ap-southeast-1", Token.startObject, Token.endObject,
   Token.objectKey "ap-southeast-2", Token.startObject, Token.endObject,
   Token.objectKey "ap-southeast-3", Token.startObject, Token.endObject,
   Token.objectKey "ca-central-1", Token.startObject, Token.endObject,
   Token.objectKey "eu-central-1", Token.startObject, Token.endObject,
   Token.objectKey "eu-north-1", Token.startObject, Token.endObject,
   Token.objectKey "eu-south-1", Token.startObject, Token.endObject,
   Token.objectKey "eu-west-1", Token.startObject, Token.endObject,
   Token.objectKey "eu-west-2", Token.startObject, Token.endObject,
   Token.objectKey "eu-west-3", Token.startObject, Token.endObject,
   Token.objectKey "me-south-1", Token.startObject, Token.endObject,
   Token.objectKey "sa-east-1", Token.startObject, Token.endObject,
   Token.objectKey "us-east-1", Token.startObject, Token.endObject,
   Token.objectKey "us-east-2", Token.startObject, Token.endObject,
   Token.objectKey "us-west-1", Token.startObject, Token.endObject,
   Token.objectKey "us-west-2", Token.startObject, Token.endObject,
   Token.objectKey "aws-global", Token.startObject, Token.endObject,
   Token.endObject,
   Token.objectKey "outputs", Token.startObject,
   Token.objectKey "name", Token.valueString "aws",
   Token.objectKey "dnsSuffix", Token.valueString "amazonaws.com",
   Token.objectKey "dualStackDnsSuffix", Token.valueString "api.aws",
   Token.objectKey "supportsFIPS", Token.valueBool true,
   Token.objectKey "supportsDualStack", Token.valueBool true,
   Token.objectKey "implicitGlobalRegion", Token.valueString "us-east-1",
   Token.endObject,
   Token.endObject]

/-- Token run of the second partition object (`aws-us-gov`). -/
def fixturePart2Tokens : List Token :=
  [Token.startObject,
   Token.objectKey "id", Token.valueString "aws-us-gov",
   Token.objectKey "regionRegex", Token.valueString "^us\\-gov\\-\\w+\\-\\d+$",
   Token.objectKey "regions", Token.startObject,
   Token.objectKey "us-gov-west-1", Token.startObject, Token.endObject,
   Token.objectKey "us-gov-east-1", Token.startObject, Token.endObject,
   Token.objectKey "aws-us-gov-global", Token.startObject, Token.endObject,
   Token.endObject,
   Token.objectKey "outputs", Token.startObject,
   Token.objectKey "name", Token.valueString "aws-us-gov",
   Token.objectKey "dnsSuffix", Token.valueString "amazonaws.com",
   Token.objectKey "dualStackDnsSuffix", Token.valueString "api.aws",
   Token.objectKey "supportsFIPS", Token.valueBool true,
   Token.objectKey "supportsDualStack", Token.valueBool true,
   Token.objectKey "implicitGlobalRegion", Token.valueString "us-gov-east-1",
   Token.endObject,
   Token.endObject]

/-- Token run of the third partition object (`aws-cn`). -/
def fixturePart3Tokens : List Token :=
  [Token.startObject,
   Token.objectKey "id", Token.valueString "aws-cn",
   Token.objectKey "regionRegex", Token.valueString "^cn\\-\\w+\\-\\d+$",
   Token.objectKey "regions", Token.startObject,
   Token.objectKey "cn-north-1", Token.startObject, Token.endObject,
   Token.objectKey "cn-northwest-1", Token.startObject, Token.endObject,
   Token.objectKey "aws-cn-global", Token.startObject, Token.endObject,
   Token.endObject,
   Token.objectKey "outputs", Token.startObject,
   Token.objectKey "name", Token.valueString "aws-cn",
   Token.objectKey "dnsSuffix", Token.valueString "amazonaws.com.cn",
   Token.objectKey "dualStackDnsSuffix", Token.valueString "api.amazonwebservices.com.cn",
   Token.objectKey "supportsFIPS", Token.valueBool true,
   Token.objectKey "supportsDualStack", Token.valueBool true,
   Token.objectKey "implicitGlobalRegion", Token.valueString "cn-north-1",
   Token.endObject,
   Token.endObject]

/-- Token run of the fourth partition object (`aws-iso`; its `outputs` is
listed before its empty `regions` object, as in the fixture). -/
def fixturePart4Tokens : List Token :=
  [Token.startObject,
   Token.objectKey "id", Token.valueString "aws-iso",
   Token.objectKey "regionRegex", Token.valueString "^us\\-iso\\-\\w+\\-\\d+$",
   Token.objectKey "outputs", Token.startObject,
   Token.objectKey "name", Token.valueString "aws-iso",
   Token.objectKey "dnsSuffix", Token.valueString "c2s.ic.gov",
   Token.objectKey "supportsFIPS", Token.valueBool true,
   Token.objectKey "supportsDualStack", Token.valueBool false,
   Token.objectKey "dualStackDnsSuffix", Token.valueString "c2s.ic.gov",
   Token.objectKey "implicitGlobalRegion", Token.valueString "us-iso-foo-1",
   Token.endObject,
   Token.objectKey "regions", Token.startObject, Token.endObject,
   Token.endObject]

/-- Token run of the fifth partition object (`aws-iso-b`). -/
def fixturePart5Tokens : List Token :=
  [Token.startObject,
   Token.objectKey "id", Token.valueString "aws-iso-b",
   Token.objectKey "regionRegex", Token.valueString "^us\\-isob\\-\\w+\\-\\d+$",
   Token.objectKey "outputs", Token.startObject,
   Token.objectKey "name", Token.valueString "aws-iso-b",
   Token.objectKey "dnsSuffix", Token.valueString "sc2s.sgov.gov",
   Token.objectKey "supportsFIPS", Token.valueBool true,
   Token.objectKey "supportsDualStack", Token.valueBool false,
   Token.objectKey "dualStackDnsSuffix", Token.valueString "sc2s.sgov.gov",
   Token.objectKey "implicitGlobalRegion", Token.valueString "us-isob-foo-1",
   Token.endObject,
   Token.objectKey "regions", Token.startObject, Token.endObject,
   Token.endObject]

/-- The token stream of the five-partition catalog fixture used by the
`deserialize_partitions` test (the raw JSON string of the test, tokenized;
string payloads are unescaped, so `\\w` in the JSON source is `\w` here). -/
def fixtureCatalogTokens : List Token :=
  [Token.startObject,
   Token.objectKey "version", Token.valueString "1.1",
   Token.objectKey "partitions", Token.startArray] ++
  (fixturePart1Tokens ++ (fixturePart2Tokens ++ (fixturePart3Tokens ++
    (fixturePart4Tokens ++ (fixturePart5Tokens ++
      [Token.endArray, Token.endObject])))))

/-- The empty per-region override (`{}` in the catalog). -/
def emptyOverride : PartitionOutputOverride :=
  { name := none
    dns_suffix := none
    dual_stack_dns_suffix := none
    supports_fips := none
    supports_dual_stack := none
    implicit_global_region := none }

/-- The `aws` partition metadata that loading the fixture produces. -/
def fixtureAwsMetadata : PartitionMetadata :=
  { id := "aws"
    region_regex := "^(us|eu|ap|sa|ca|me|af)-\\w+-\\d+$"
    regions :=
      [("af-south-1", emptyOverride), ("af-east-1", emptyOverride),
       ("ap-northeast-1", emptyOverride), ("ap-northeast-2", emptyOverride),
       ("ap-northeast-3", emptyOverride), ("ap-south-1", emptyOverride),
       ("ap-southeast-1", emptyOverride), ("ap-southeast-2", emptyOverride),
       ("ap-southeast-3", emptyOverride), ("ca-central-1", emptyOverride),
       ("eu-central-1", emptyOverride), ("eu-north-1", emptyOverride),
       ("eu-south-1", emptyOverride), ("eu-west-1", emptyOverride),
       ("eu-west-2", emptyOverride), ("eu-west-3", emptyOverride),
       ("me-south-1", emptyOverride), ("sa-east-1", emptyOverride),
       ("us-east-1", emptyOverride), ("us-east-2", emptyOverride),
       ("us-west-1", emptyOverride), ("us-west-2", emptyOverride),
       ("aws-global", emptyOverride)]
    outputs :=
      { name := "aws"
        dns_suffix := "amazonaws.com"
        dual_stack_dns_suffix := "api.aws"
        supports_fips := true
        supports_dual_stack := true
        implicit_global_region := "us-east-1" } }

/-- The `aws-us-gov` partition metadata of the fixture. -/
def fixtureGovMetadata : PartitionMetadata :=
  { id := "aws-us-gov"
    region_regex := "^us\\-gov\\-\\w+\\-\\d+$"
    regions :=
      [("us-gov-west-1", emptyOverride), ("us-gov-east-1", emptyOverride),
       ("aws-us-gov-global", emptyOverride)]
    outputs :=
      { name := "aws-us-gov"
        dns_suffix := "amazonaws.com"
        dual_stack_dns_suffix := "api.aws"
        supports_fips := true
        supports_dual_stack := true
        implicit_global_region := "us-gov-east-1" } }

/-- The `aws-cn` partition metadata of the fixture. -/
def fixtureCnMetadata : PartitionMetadata :=
  { id := "aws-cn"
    region_regex := "^cn\\-\\w+\\-\\d+$"
    regions :=
      [("cn-north-1", emptyOverride), ("cn-northwest-1", emptyOverride),
       ("aws-cn-global", emptyOverride)]
    outputs :=
      { name := "aws-cn"
        dns_suffix := "amazonaws.com.cn"
        dual_stack_dns_suffix := "api.amazonwebservices.com.cn"
        supports_fips := true
        supports_dual_stack := true
        implicit_global_region := "cn-north-1" } }

/-- The `aws-iso` partition metadata of the fixture. -/
def fixtureIsoMetadata : PartitionMetadata :=
  { id := "aws-iso"
    region_regex := "^us\\-iso\\-\\w+\\-\\d+$"
    regions := []
    outputs :=
      { name := "aws-iso"
        dns_suffix := "c2s.ic.gov"
        dual_stack_dns_suffix := "c2s.ic.gov"
        supports_fips := true
        supports_dual_stack := false
        implicit_global_region := "us-iso-foo-1" } }

/-- The `aws-iso-b` partition metadata of the fixture. -/
def fixtureIsoBMetadata : PartitionMetadata :=
  { id := "aws-iso-b"
    region_regex := "^us\\-isob\\-\\w+\\-\\d+$"
    regions := []
    outputs :=
      { name := "aws-iso-b"
        dns_suffix := "sc2s.sgov.gov"
        dual_stack_dns_suffix := "sc2s.sgov.gov"
        supports_fips := true
        supports_dual_stack := false
        implicit_global_region := "us-isob-foo-1" } }

/-- The resolver that loading the catalog fixture produces. -/
def awsFixtureResolver : PartitionResolver :=
  { partitions := [fixtureAwsMetadata, fixtureGovMetadata, fixtureCnMetadata,
      fixtureIsoMetadata, fixtureIsoBMetadata] }

/-! Evaluation of the fixture parse, one partition at a time. Each lemma
advances the item loop of `deser_partitions` across one partition object; the
engine is any engine whose `Regex::new` accepts every pattern (its match
function `m` is irrelevant to loading). -/

set_option maxRecDepth 8000 in
theorem fixture_items_aws (m : String → String → Bool)
    (items : List PartitionMetadata) (rest : List Token) :
    deser_partitions_items { compile_ok := fun _ => true, is_match := m } items
        (fixturePart1Tokens ++ rest) =
      deser_partitions_items { compile_ok := fun _ => true, is_match := m }
        (items ++ [fixtureAwsMetadata]) rest := by
  simp only [fixturePart1Tokens, fixtureAwsMetadata, emptyOverride,
    List.cons_append, List.nil_append,
    deser_partitions_items_start, deser_partition,
    deser_partition_loop_end, deser_partition_loop_key,
    deser_outputs, deser_outputs_loop_end, deser_outputs_loop_key,
    deser_explicit_regions, deser_explicit_regions_loop_end, deser_explicit_regions_loop_key,
    token_to_str, expect_string_or_null, expect_bool_or_null,
    hashInsert, PartitionMetadataBuilder.build, PartitionOutputOverride.into_partition_output,
    String.reduceEq, reduceIte]

set_option maxRecDepth 8000 in
theorem fixture_items_gov (m : String → String → Bool)
    (items : List PartitionMetadata) (rest : List Token) :
    deser_partitions_items { compile_ok := fun _ => true, is_match := m } items
        (fixturePart2Tokens ++ rest) =
      deser_partitions_items { compile_ok := fun _ => true, is_match := m }
        (items ++ [fixtureGovMetadata]) rest := by
  simp only [fixturePart2Tokens, fixtureGovMetadata, emptyOverride,
    List.cons_append, List.nil_append,
    deser_partitions_items_start, deser_partition,
    deser_partition_loop_end, deser_partition_loop_key,
    deser_outputs, deser_outputs_loop_end, deser_outputs_loop_key,
    deser_explicit_regions, deser_explicit_regions_loop_end, deser_explicit_regions_loop_key,
    token_to_str, expect_string_or_null, expect_bool_or_null,
    hashInsert, PartitionMetadataBuilder.build, PartitionOutputOverride.into_partition_output,
    String.reduceEq, reduceIte]

set_option maxRecDepth 8000 in
theorem fixture_items_cn (m : String → String → Bool)
    (items : List PartitionMetadata) (rest : List Token) :
    deser_partitions_items { compile_ok := fun _ => true, is_match := m } items
        (fixturePart3Tokens ++ rest) =
      deser_partitions_items { compile_ok := fun _ => true, is_match := m }
        (items ++ [fixtureCnMetadata]) rest := by
  simp only [fixturePart3Tokens, fixtureCnMetadata, emptyOverride,
    List.cons_append, List.nil_append,
    deser_partitions_items_start, deser_partition,
    deser_partition_loop_end, deser_partition_loop_key,
    deser_outputs, deser_outputs_loop_end, deser_outputs_loop_key,
    deser_explicit_regions, deser_explicit_regions_loop_end, deser_explicit_regions_loop_key,
    token_to_str, expect_string_or_null, expect_bool_or_null,
    hashInsert, PartitionMetadataBuilder.build, PartitionOutputOverride.into_partition_output,
    String.reduceEq, reduceIte]

set_option maxRecDepth 8000 in
theorem fixture_items_iso (m : String → String → Bool)
    (items : List PartitionMetadata) (rest : List Token) :
    deser_partitions_items { compile_ok := fun _ => true, is_match := m } items
        (fixturePart4Tokens ++ rest) =
      deser_partitions_items { compile_ok := fun _ => true, is_match := m }
        (items ++ [fixtureIsoMetadata]) rest := by
  simp only [fixturePart4Tokens, fixtureIsoMetadata,
    List.cons_append, List.nil_append,
    deser_partitions_items_start, deser_partition,
    deser_partition_loop_end, deser_partition_loop_key,
    deser_outputs, deser_outputs_loop_end, deser_outputs_loop_key,
    deser_explicit_regions, deser_explicit_regions_loop_end, deser_explicit_regions_loop_key,
    token_to_str, expect_string_or_null, expect_bool_or_null,
    hashInsert, PartitionMetadataBuilder.build, PartitionOutputOverride.into_partition_output,
    String.reduceEq, reduceIte]

set_option maxRecDepth 8000 in
theorem fixture_items_iso_b (m : String → String → Bool)
    (items : List PartitionMetadata) (rest : List Token) :
    deser_partitions_items { compile_ok := fun _ => true, is_match := m } items
        (fixturePart5Tokens ++ rest) =
      deser_partitions_items { compile_ok := fun _ => true, is_match := m }
        (items ++ [fixtureIsoBMetadata]) rest := by
  simp only [fixturePart5Tokens, fixtureIsoBMetadata,
    List.cons_append, List.nil_append,
    deser_partitions_items_start, deser_partition,
    deser_partition_loop_end, deser_partition_loop_key,
    deser_outputs, deser_outputs_loop_end, deser_outputs_loop_key,
    deser_explicit_regions, deser_explicit_regions_loop_end, deser_explicit_regions_loop_key,
    token_to_str, expect_string_or_null, expect_bool_or_null,
    hashInsert, PartitionMetadataBuilder.build, PartitionOutputOverride.into_partition_output,
    String.reduceEq, reduceIte]

set_option maxRecDepth 8000 in
theorem fixture_parse (m : String → String → Bool) :
    PartitionResolver.new_from_json { compile_ok := fun _ => true, is_match := m }
      fixtureCatalogTokens = Except.ok awsFixtureResolver := by
  simp only [PartitionResolver.new_from_json, deserialize_partitions, expect_start_object,
    fixtureCatalogTokens, List.cons_append, List.nil_append,
    deserialize_partitions_loop_end, deserialize_partitions_loop_key,
    deser_partitions, skip_value, skip_value_aux,
    fixture_items_aws, fixture_items_gov, fixture_items_cn, fixture_items_iso,
    fixture_items_iso_b, deser_partitions_items_end,
    PartitionResolver.from_partitions, awsFixtureResolver,
    String.reduceEq, reduceIte, List.isEmpty_nil, List.isEmpty_cons]

/-! ### Further concrete catalogs for the construction-error claims -/

/-- Token stream of `{"partitions": [{"regionRegex": "a", "outputs":
{all six fields}}]}` — the `id` key is missing. -/
def missingIdCatalog : List Token :=
  [Token.startObject, Token.objectKey "partitions", Token.startArray,
   Token.startObject,
   Token.objectKey "regionRegex", Token.valueString "a",
   Token.objectKey "outputs", Token.startObject,
   Token.objectKey "name", Token.valueString "n",
   Token.objectKey "dnsSuffix", Token.valueString "d",
   Token.objectKey "dualStackDnsSuffix", Token.valueString "dd",
   Token.objectKey "supportsFIPS", Token.valueBool true,
   Token.objectKey "supportsDualStack", Token.valueBool false,
   Token.objectKey "implicitGlobalRegion", Token.valueString "g",
   Token.endObject,
   Token.endObject, Token.endArray, Token.endObject]

/-- Token stream of `{"partitions": [{"id": "x", "outputs":
{all six fields}}]}` — the `regionRegex` key is missing. -/
def missingRegexCatalog : List Token :=
  [Token.startObject, Token.objectKey "partitions", Token.startArray,
   Token.startObject,
   Token.objectKey "id", Token.valueString "x",
   Token.objectKey "outputs", Token.startObject,
   Token.objectKey "name", Token.valueString "n",
   Token.objectKey "dnsSuffix", Token.valueString "d",
   Token.objectKey "dualStackDnsSuffix", Token.valueString "dd",
   Token.objectKey "supportsFIPS", Token.valueBool true,
   Token.objectKey "supportsDualStack", Token.valueBool false,
   Token.objectKey "implicitGlobalRegion", Token.valueString "g",
   Token.endObject,
   Token.endObject, Token.endArray, Token.endObject]

/-- Token stream of `{"partitions": [{"id": "x", "regionRegex": "a"}]}` —
the `outputs` key is missing. -/
def missingOutputsKeyCatalog : List Token :=
  [Token.startObject, Token.objectKey "partitions", Token.startArray,
   Token.startObject,
   Token.objectKey "id", Token.valueString "x",
   Token.objectKey "regionRegex", Token.valueString "a",
   Token.endObject, Token.endArray, Token.endObject]

/-- Token stream of `{"partitions": [{"id": "x", "regionRegex": "a",
"outputs": {all six fields}}]}` — a well-formed one-partition catalog with no
`regions` key at all. -/
def noRegionsCatalog : List Token :=
  [Token.startObject, Token.objectKey "partitions", Token.startArray,
   Token.startObject,
   Token.objectKey "id", Token.valueString "x",
   Token.objectKey "regionRegex", Token.valueString "a",
   Token.objectKey "outputs", Token.startObject,
   Token.objectKey "name", Token.valueString "n",
   Token.objectKey "dnsSuffix", Token.valueString "d",
   Token.objectKey "dualStackDnsSuffix", Token.valueString "dd",
   Token.objectKey "supportsFIPS", Token.valueBool true,
   Token.objectKey "supportsDualStack", Token.valueBool false,
   Token.objectKey "implicitGlobalRegion", Token.valueString "g",
   Token.endObject,
   Token.endObject, Token.endArray, Token.endObject]

/-- The partition that loading `noRegionsCatalog` produces: its explicit
region map is the builder's default, the empty map. -/
def noRegionsPartition : PartitionMetadata :=
  { id := "x"
    region_regex := "a"
    regions := []
    outputs :=
      { name := "n"
        dns_suffix := "d"
        dual_stack_dns_suffix := "dd"
        supports_fips := true
        supports_dual_stack := false
        implicit_global_region := "g" } }

/-- `v` is the token run of exactly one complete JSON value: `skip_value`
consumes precisely `v` from any stream that starts with it. -/
def IsValueTokens (v : List Token) : Prop :=
  ∀ rest : List Token, skip_value (v ++ rest) = Except.ok rest

/-! ### Claims about the catalog loader -/

/-- C6 counterexample: the claim "a catalog whose partition object omits one
of the six `outputs` fields yields an `Err`, not a runtime panic" is false on
the code: parsing such a catalog reaches `PartitionMetadataBuilder::build`,
whose `expect("missing fields on outputs")` panics (modelled as
`DeserError.panic`, distinct from every `Err` the deserializer returns, which
are all `DeserError.custom`). -/
theorem claim_C6_counterexample :
    PartitionResolver.new_from_json noMatchEngine missingOutputsCatalog =
      Except.error (DeserError.panic "missing fields on outputs") := by
  simp only [PartitionResolver.new_from_json, deserialize_partitions, expect_start_object,
    deserialize_partitions_loop_end, deserialize_partitions_loop_key,
    deser_partitions, deser_partitions_items_end, deser_partitions_items_start,
    deser_partition, deser_partition_loop_end, deser_partition_loop_key,
    deser_outputs, deser_outputs_loop_end, deser_outputs_loop_key,
    token_to_str, expect_string_or_null, expect_bool_or_null,
    PartitionMetadataBuilder.build, PartitionOutputOverride.into_partition_output,
    noMatchEngine, missingOutputsCatalog, String.reduceEq, reduceIte,
    List.isEmpty_nil, List.isEmpty_cons]

/-- C6 amended: `new_from_json` surfaces structural catalog errors (here: a
top-level object with no `partitions` array) as returned `Err` values, but a
structurally well-formed partition object that omits `id`, `regionRegex`,
`outputs`, or any of the six `outputs` fields makes `build` panic via
`expect` (the `DeserError.panic` results below), rather than returning an
`Err`. -/
theorem claim_C6_amended :
    PartitionResolver.new_from_json noMatchEngine [Token.startObject, Token.endObject] =
      Except.error (DeserError.custom "did not find partitions array")
    ∧ PartitionResolver.new_from_json noMatchEngine missingIdCatalog =
      Except.error (DeserError.panic "id must be defined")
    ∧ PartitionResolver.new_from_json noMatchEngine missingRegexCatalog =
      Except.error (DeserError.panic "region regex must be defined")
    ∧ PartitionResolver.new_from_json noMatchEngine missingOutputsKeyCatalog =
      Except.error (DeserError.panic "outputs must be defined") := by
  refine ⟨?_, ?_, ?_, ?_⟩ <;>
    simp only [PartitionResolver.new_from_json, deserialize_partitions, expect_start_object,
      deserialize_partitions_loop_end, deserialize_partitions_loop_key,
      deser_partitions, deser_partitions_items_end, deser_partitions_items_start,
      deser_partition, deser_partition_loop_end, deser_partition_loop_key,
      deser_outputs, deser_outputs_loop_end, deser_outputs_loop_key,
      token_to_str, expect_string_or_null, expect_bool_or_null,
      PartitionMetadataBuilder.build, PartitionOutputOverride.into_partition_output,
      noMatchEngine, missingIdCatalog, missingRegexCatalog, missingOutputsKeyCatalog,
      String.reduceEq, reduceIte, List.isEmpty_nil, List.isEmpty_cons]

/-- C7. Forward-compatible parsing: an unknown key (with any complete JSON
value) at the top level, inside a partition object, or inside an output
object is skipped — each of the three object loops, and the whole
`deserialize_partitions`, produce exactly the same result as on the stream
without the unknown entry. -/
theorem claim_C7_forward_compatible (engine : RegexEngine) (k1 k2 k3 : String)
    (v : List Token) (hv : IsValueTokens v)
    (h1 : k1 ≠ "partitions")
    (h2 : k2 ∉ ["id", "regionRegex", "regions", "outputs"])
    (h3 : k3 ∉ ["name", "dnsSuffix", "dualStackDnsSuffix", "supportsFIPS",
      "supportsDualStack", "implicitGlobalRegion"]) :
    (∀ (r : Option PartitionResolver) (ts : List Token),
      deserialize_partitions_loop engine r (Token.objectKey k1 :: (v ++ ts)) =
        deserialize_partitions_loop engine r ts)
    ∧ (∀ (b : PartitionMetadataBuilder) (ts : List Token),
      deser_partition_loop engine b (Token.objectKey k2 :: (v ++ ts)) =
        deser_partition_loop engine b ts)
    ∧ (∀ (b : PartitionOutputOverride) (ts : List Token),
      deser_outputs_loop b (Token.objectKey k3 :: (v ++ ts)) =
        deser_outputs_loop b ts)
    ∧ (∀ ts : List Token,
      deserialize_partitions engine (Token.startObject :: Token.objectKey k1 :: (v ++ ts)) =
        deserialize_partitions engine (Token.startObject :: ts)) := by
  have m1 : ¬k2 = "id" := fun hh => h2 (by simp [hh])
  have m2 : ¬k2 = "regionRegex" := fun hh => h2 (by simp [hh])
  have m3 : ¬k2 = "regions" := fun hh => h2 (by simp [hh])
  have m4 : ¬k2 = "outputs" := fun hh => h2 (by simp [hh])
  have n1 : ¬k3 = "name" := fun hh => h3 (by simp [hh])
  have n2 : ¬k3 = "dnsSuffix" := fun hh => h3 (by simp [hh])
  have n3 : ¬k3 = "dualStackDnsSuffix" := fun hh => h3 (by simp [hh])
  have n4 : ¬k3 = "supportsFIPS" := fun hh => h3 (by simp [hh])
  have n5 : ¬k3 = "supportsDualStack" := fun hh => h3 (by simp [hh])
  have n6 : ¬k3 = "implicitGlobalRegion" := fun hh => h3 (by simp [hh])
  have htop : ∀ (r : Option PartitionResolver) (ts : List Token),
      deserialize_partitions_loop engine r (Token.objectKey k1 :: (v ++ ts)) =
        deserialize_partitions_loop engine r ts := by
    intro r ts
    rw [deserialize_partitions_loop_key, if_neg h1, hv ts]
  refine ⟨htop, ?_, ?_, ?_⟩
  · intro b ts
    rw [deser_partition_loop_key, if_neg m1, if_neg m2, if_neg m3, if_neg m4, hv ts]
  · intro b ts
    rw [deser_outputs_loop_key, if_neg n1, if_neg n2, if_neg n3, if_neg n4, if_neg n5,
      if_neg n6, hv ts]
  · intro ts
    simp only [deserialize_partitions, expect_start_object, htop]

/-- C8. Round trip over the catalog fixture: loading the five-partition
fixture catalog succeeds — for every match function `m` of an engine that
accepts the fixture's five regex patterns — and resolving `"cn-north-1"`
yields name `"aws-cn"` and dns_suffix `"amazonaws.com.cn"`, while resolving
`"af-south-1"` (an explicit entry with an empty override) yields
implicit_global_region `"us-east-1"`, inherited from the `aws` partition's
base outputs. -/
theorem claim_C8_round_trip (m : String → String → Bool) :
    PartitionResolver.new_from_json { compile_ok := fun _ => true, is_match := m }
      fixtureCatalogTokens = Except.ok awsFixtureResolver
    ∧ awsFixtureResolver.partitions.length = 5
    ∧ (awsFixtureResolver.resolve_partition { compile_ok := fun _ => true, is_match := m }
        "cn-north-1" { errors := [] }).1.map (fun p => (p.name, p.dns_suffix)) =
      some ("aws-cn", "amazonaws.com.cn")
    ∧ (awsFixtureResolver.resolve_partition { compile_ok := fun _ => true, is_match := m }
        "af-south-1" { errors := [] }).1.map (fun p => p.implicit_global_region) =
      some "us-east-1" :=
  ⟨fixture_parse m, rfl, rfl, rfl⟩

/-- C10. The `regions` key is optional: a partition object carrying `id`,
`regionRegex` and a full `outputs` but no `regions` key loads successfully
with an empty explicit-region map, its explicit tier never matches any
region, and every lookup against a resolver holding only this partition falls
through to the regex tier and then the default tier. -/
theorem claim_C10_regions_optional :
    PartitionResolver.new_from_json noMatchEngine noRegionsCatalog =
      Except.ok (PartitionResolver.from_partitions [noRegionsPartition])
    ∧ noRegionsPartition.regions = []
    ∧ (∀ region : String, noRegionsPartition.explicit_match region = none)
    ∧ (∀ (engine : RegexEngine) (region : String) (e : DiagnosticCollector),
        (PartitionResolver.from_partitions [noRegionsPartition]).resolve_partition
            engine region e =
          if engine.is_match noRegionsPartition.region_regex region then
            (some (merge_partition noRegionsPartition DEFAULT_OVERRIDE), e)
          else (none, e.report_error "no AWS partition!")) := by
  refine ⟨?_, rfl, fun region => rfl, ?_⟩
  · simp only [PartitionResolver.new_from_json, deserialize_partitions, expect_start_object,
      deserialize_partitions_loop_end, deserialize_partitions_loop_key,
      deser_partitions, deser_partitions_items_end, deser_partitions_items_start,
      deser_partition, deser_partition_loop_end, deser_partition_loop_key,
      deser_outputs, deser_outputs_loop_end, deser_outputs_loop_key,
      token_to_str, expect_string_or_null, expect_bool_or_null,
      PartitionMetadataBuilder.build, PartitionOutputOverride.into_partition_output,
      noMatchEngine, noRegionsCatalog, noRegionsPartition,
      PartitionResolver.from_partitions, String.reduceEq, reduceIte,
      List.isEmpty_nil, List.isEmpty_cons, List.nil_append, List.cons_append]
  · intro engine region e
    have hexp : (((PartitionResolver.from_partitions [noRegionsPartition]).partitions).filterMap
        (fun part => part.explicit_match region)).head? = none := rfl
    by_cases hm : engine.is_match noRegionsPartition.region_regex region = true
    · rw [if_pos hm]
      have hreg : (((PartitionResolver.from_partitions [noRegionsPartition]).partitions).filterMap
          (fun part => part.regex_match engine region)).head? =
            some (noRegionsPartition, none) := by
        simp [PartitionResolver.from_partitions, PartitionMetadata.regex_match, hm]
      simpa using resolve_partition_regex_some
        (PartitionResolver.from_partitions [noRegionsPartition]) engine region e
        noRegionsPartition none hexp hreg
    · rw [if_neg hm]
      have hreg := (regex_head_none_iff
          (PartitionResolver.from_partitions [noRegionsPartition]).partitions engine region).mpr ?_
      · have hfind : ((PartitionResolver.from_partitions [noRegionsPartition]).partitions).find?
            (fun p => p.id == "aws") = none := rfl
        exact resolve_partition_fail (PartitionResolver.from_partitions [noRegionsPartition])
          engine region e hexp hreg hfind
      · intro P hP
        have hPeq : P = noRegionsPartition := by simpa [PartitionResolver.from_partitions] using hP
        subst hPeq
        exact Bool.eq_false_iff.mpr hm

/-! ### Small concrete fixtures for the witnesses -/

/-- Base outputs of the first witness partition. -/
def outputsOne : PartitionOutput :=
  { name := "one"
    dns_suffix := "one.example"
    dual_stack_dns_suffix := "one.dual"
    supports_fips := true
    supports_dual_stack := false
    implicit_global_region := "one-global" }

/-- Base outputs of the second witness partition. -/
def outputsTwo : PartitionOutput :=
  { name := "two"
    dns_suffix := "two.example"
    dual_stack_dns_suffix := "two.dual"
    supports_fips := false
    supports_dual_stack := true
    implicit_global_region := "two-global" }

/-- Override attached to region "rr" in the first witness partition. -/
def overrideOne : PartitionOutputOverride :=
  { name := none
    dns_suffix := some "override.example"
    dual_stack_dns_suffix := none
    supports_fips := none
    supports_dual_stack := none
    implicit_global_region := none }

/-- First witness partition: lists region "rr" explicitly with an override. -/
def partOne : PartitionMetadata :=
  { id := "one", region_regex := "ra", regions := [("rr", overrideOne)], outputs := outputsOne }

/-- Second witness partition: also lists region "rr" explicitly (a tie). -/
def partTwo : PartitionMetadata :=
  { id := "two", region_regex := "rb", regions := [("rr", emptyOverride)], outputs := outputsTwo }

/-- Two partitions that both list "rr" explicitly and whose regexes both
match every region under `allMatchEngine`. -/
def twoPartResolver : PartitionResolver :=
  { partitions := [partOne, partTwo] }

/-- An engine whose regexes match every region. -/
def allMatchEngine : RegexEngine :=
  { compile_ok := fun _ => true
    is_match := fun _ _ => true }

/-- A fresh, empty diagnostic collector. -/
def emptyCollector : DiagnosticCollector :=
  { errors := [] }

/-- A default partition with id "aws", listed after a non-matching one. -/
def awsDefaultMetadata : PartitionMetadata :=
  { id := "aws", region_regex := "ra", regions := [], outputs := outputsOne }

/-- A resolver whose "aws" partition sits second in catalog order. -/
def awsTailResolver : PartitionResolver :=
  { partitions := [partTwo, awsDefaultMetadata] }

/-- Witness for C1 at a concrete input: both partitions of
`twoPartResolver` regex-match "rr" under `allMatchEngine`, yet the explicit
entry of the first partition wins with its override. -/
theorem claim_C1_witness :
    twoPartResolver.resolve_partition allMatchEngine "rr" emptyCollector =
      (some (merge_partition partOne overrideOne), emptyCollector) :=
  claim_C1_explicit_precedence allMatchEngine twoPartResolver "rr" emptyCollector
    [] [partTwo] partOne overrideOne rfl (by decide) rfl

/-- Witness for C2 at concrete inputs: an explicit tie on "rr" and a regex
tie on "zz" are both resolved to the earlier partition `partOne`. -/
theorem claim_C2_witness :
    twoPartResolver.resolve_partition allMatchEngine "rr" emptyCollector =
      (some (merge_partition partOne overrideOne), emptyCollector)
    ∧ twoPartResolver.resolve_partition allMatchEngine "zz" emptyCollector =
      (some (merge_partition partOne DEFAULT_OVERRIDE), emptyCollector) :=
  ⟨(claim_C2_catalog_order_tie_break allMatchEngine twoPartResolver "rr" emptyCollector
      [] [partTwo] partOne).1 overrideOne rfl (by decide) rfl
      ⟨partTwo, by decide, emptyOverride, rfl⟩,
   (claim_C2_catalog_order_tie_break allMatchEngine twoPartResolver "zz" emptyCollector
      [] [partTwo] partOne).2 rfl (by decide) (by decide) rfl
      ⟨partTwo, by decide, rfl⟩⟩

/-- Witness for C3 at a concrete input: the partition resolved for "rr" is
`partOne` with the selected override `overrideOne`. -/
theorem claim_C3_witness :
    ∃ base ∈ twoPartResolver.partitions, ∃ ov : PartitionOutputOverride,
      ((merge_partition partOne overrideOne).name = ov.name.getD base.outputs.name ∧
       (merge_partition partOne overrideOne).dns_suffix =
         ov.dns_suffix.getD base.outputs.dns_suffix ∧
       (merge_partition partOne overrideOne).dual_stack_dns_suffix =
         ov.dual_stack_dns_suffix.getD base.outputs.dual_stack_dns_suffix ∧
       (merge_partition partOne overrideOne).supports_fips =
         ov.supports_fips.getD base.outputs.supports_fips ∧
       (merge_partition partOne overrideOne).supports_dual_stack =
         ov.supports_dual_stack.getD base.outputs.supports_dual_stack ∧
       (merge_partition partOne overrideOne).implicit_global_region =
         ov.implicit_global_region.getD base.outputs.implicit_global_region) ∧
      (ov = DEFAULT_OVERRIDE →
        ((merge_partition partOne overrideOne).name = base.outputs.name ∧
         (merge_partition partOne overrideOne).dns_suffix = base.outputs.dns_suffix ∧
         (merge_partition partOne overrideOne).dual_stack_dns_suffix =
           base.outputs.dual_stack_dns_suffix ∧
         (merge_partition partOne overrideOne).supports_fips = base.outputs.supports_fips ∧
         (merge_partition partOne overrideOne).supports_dual_stack =
           base.outputs.supports_dual_stack ∧
         (merge_partition partOne overrideOne).implicit_global_region =
           base.outputs.implicit_global_region)) :=
  claim_C3_merge_totality allMatchEngine twoPartResolver "rr" emptyCollector
    (merge_partition partOne overrideOne) emptyCollector rfl

/-- Witness for C4 at a concrete input: region "zz" matches nothing in
`awsTailResolver`, so resolution falls back to its `aws` partition. -/
theorem claim_C4_witness :
    awsTailResolver.resolve_partition noMatchEngine "zz" emptyCollector =
      (some (merge_partition awsDefaultMetadata DEFAULT_OVERRIDE), emptyCollector) :=
  claim_C4_default_fallback noMatchEngine awsTailResolver "zz" emptyCollector
    [partTwo] [] awsDefaultMetadata (by decide) (by decide) rfl (by decide) rfl

/-- Witness for C7 at a concrete input: an unknown key "extraKey" with a
string value inside an output object is skipped. -/
theorem claim_C7_witness :
    deser_outputs_loop emptyOverride
        (Token.objectKey "extraKey" :: ([Token.valueString "ignored"] ++ [Token.endObject])) =
      deser_outputs_loop emptyOverride [Token.endObject] :=
  (claim_C7_forward_compatible noMatchEngine "versionKey" "otherKey" "extraKey"
    [Token.valueString "ignored"] (fun rest => rfl) (by decide) (by decide) (by decide)).2.2.1
    emptyOverride [Token.endObject]


end EndpointLib
